import Mathlib

/-!
# Type relation of the Arm Ethos-U NPU `contrib.ethosu.conv2d` operator

Shallow embedding of `src/relay/op/contrib/ethosu/convolution.cc`.

* Tensor dimensions (`IndexExpr`) are integers; an `Array<IndexExpr>` is a `List Int`,
  a nullable array or expression is an `Option`.
* The five type slots handed to the relation are a `List RelayType`.  The relation
  returns its status together with the slots as the reporter holds them afterwards and
  the diagnostics it emitted through `EmitFatal`.
* Every abnormal exit of the C++ code (a failed `CHECK`, an out-of-range `Array` index,
  a read through a null pointer) is an explicit `RelError`.
* `TypeReporter::Assign`, `EthosuInferUpscaledInput` and `EthosuInferKernelOutput` are
  defined outside this file of the repository; they are modelled from the specification.
* `MakeEthosuConv2D` builds the call node; the expression type of the host is a parameter.
-/

namespace EthosU

/-! ## Data model -/

/-- Type codes of a `DataType`. -/
inductive TypeCode
  | kInt
  | kUInt
  | kFloat
  | kHandle
  | kBFloat
  deriving DecidableEq, Repr

/-- Element data type: type code, bit width and vector lanes. -/
structure DataType where
  code : TypeCode
  bits : Nat
  lanes : Nat
  deriving DecidableEq, Repr

/-- The scalar type `DataType::Int(bits)`. -/
def DataType.Int (bits : Nat) : DataType := ⟨TypeCode.kInt, bits, 1⟩

/-- The scalar type `DataType::UInt(bits)`. -/
def DataType.UInt (bits : Nat) : DataType := ⟨TypeCode.kUInt, bits, 1⟩

/-- The scalar type `DataType::Float(bits)`. -/
def DataType.Float (bits : Nat) : DataType := ⟨TypeCode.kFloat, bits, 1⟩

/-- A concrete tensor type: shape and element data type. -/
structure TensorTypeNode where
  shape : List Int
  dtype : DataType
  deriving DecidableEq, Repr

/-- A type slot: a concrete tensor type, a type that is not yet resolved, or a resolved
type that is not a tensor (a tuple, a function type). -/
inductive RelayType
  | tensor (t : TensorTypeNode)
  | incomplete
  | other
  deriving DecidableEq, Repr

/-- The downcast `type.as<TensorTypeNode>()`: `none` is the null pointer. -/
def RelayType.asTensorTypeNode : RelayType → Option TensorTypeNode
  | RelayType.tensor t => some t
  | _ => none

/-- Attributes of the operator, `struct EthosuConv2DAttrs`.  `kernel_shape` and
`ofm_channels` are nullable: their declared default is `NullValue`. -/
structure EthosuConv2DAttrs where
  ifm_scale : Float
  ifm_zero_point : Int
  weight_zero_point : Int
  ofm_scale : Float
  ofm_zero_point : Int
  kernel_shape : Option (List Int)
  ofm_channels : Option Int
  strides : List Int
  padding : List Int
  dilation : List Int
  activation : String
  clip_min : Int
  clip_max : Int
  rounding_mode : String
  upscale : String
  ifm_layout : String
  ofm_layout : String

/-- The attribute record with every declared default of `TVM_DECLARE_ATTRS` applied; the
five quantization fields have no declared default and are given by the caller. -/
def EthosuConv2DAttrs.withDefaults (ifm_scale : Float) (ifm_zero_point weight_zero_point : Int)
    (ofm_scale : Float) (ofm_zero_point : Int) : EthosuConv2DAttrs where
  ifm_scale := ifm_scale
  ifm_zero_point := ifm_zero_point
  weight_zero_point := weight_zero_point
  ofm_scale := ofm_scale
  ofm_zero_point := ofm_zero_point
  kernel_shape := none
  ofm_channels := none
  strides := [1, 1]
  padding := [0, 0, 0, 0]
  dilation := [1, 1]
  activation := "NONE"
  clip_min := 0
  clip_max := 0
  rounding_mode := "TFL"
  upscale := "NONE"
  ifm_layout := "NHWC"
  ofm_layout := "NHWC"

/-- The ways an invocation of the relation ends other than by `return true` or by the
silent `return false`. -/
inductive RelError
  /-- `CHECK_EQ(types.size(), 5)` failed. -/
  | ArityMismatch
  /-- `CHECK(param != nullptr)` failed. -/
  | NullAttrs
  /-- A field was read through a null `TensorTypeNode` pointer. -/
  | NullDereference
  /-- A fatal diagnostic about the data type of a tensor. -/
  | UnsupportedDType
  /-- A fatal diagnostic about the value of the `upscale` attribute. -/
  | InvalidEnumValue
  /-- The bounds check of `Array::operator[]` failed on the named array. -/
  | IndexOutOfRange (array : String) (index : Nat)
  /-- A null array was indexed, or a null expression was used as a dimension. -/
  | NullValue (field : String)
  /-- An assignment met a type already in the slot that it does not unify with. -/
  | ShapeConflict (slot : Nat)
  /-- A layout string is neither NHWC nor NHCWB16. -/
  | UnsupportedLayout
  /-- A dimension of the computed output shape is not positive. -/
  | InvalidGeometry
  deriving DecidableEq, Repr

/-- The diagnostics the relation emits with `EmitFatal`: the tensor named in the message
and the data type found, or the upscale value found. -/
inductive Diagnostic
  | dtype (tensor : String) (found : DataType)
  | upscaleMethod (found : String)
  deriving DecidableEq, Repr

/-- How an invocation ends: `resolved` is `return true`, `deferred` is the `return false`
taken before anything is checked. -/
inductive RelStatus
  | resolved
  | deferred
  | failed (e : RelError)
  deriving DecidableEq, Repr

/-- What an invocation leaves behind: its status, the five slots as the reporter holds
them afterwards, and the diagnostics emitted. -/
structure RelResult where
  status : RelStatus
  types : List RelayType
  diags : List Diagnostic
  deriving DecidableEq, Repr

/-! ## Operations -/

/-- The bounds-checked read `xs[i]` of `Array::operator[]`. -/
def arrayAt (name : String) (xs : List Int) (i : Nat) : Except RelError Int :=
  match xs[i]? with
  | some v => Except.ok v
  | none => Except.error (RelError.IndexOutOfRange name i)

/-- Modelled from the spec: `TypeReporter::Assign`, the unification of a slot with a
tensor type, which belongs to the type solver.  An unresolved slot takes the type; a slot
that already holds this very type keeps it; anything else in the slot is a conflict,
reported as `none`. -/
def Assign (types : List RelayType) (slot : Nat) (src : TensorTypeNode) :
    Option (List RelayType) :=
  match types[slot]? with
  | some RelayType.incomplete => some (types.set slot (RelayType.tensor src))
  | some (RelayType.tensor t) => if t = src then some types else none
  | _ => none

/-- Modelled from the spec: the axis mapping of a layout, which belongs to `common.cc`.
Height is at index 1 in both layouts, width at index 2 in NHWC and at index 3 in
NHCWB16; any other tag is unsupported. -/
def layoutHeightWidth (layout : String) : Option (Nat × Nat) :=
  if layout = "NHWC" then some (1, 2)
  else if layout = "NHCWB16" then some (1, 3)
  else none

/-- Modelled from the spec: `EthosuInferUpscaledInput` of `common.cc`.  Height and width
are doubled at the positions the layout gives, every other axis is left as it is. -/
def EthosuInferUpscaledInput (ifm_shape : List Int) (ifm_layout : String) :
    Except RelError (List Int) :=
  match layoutHeightWidth ifm_layout with
  | none => Except.error RelError.UnsupportedLayout
  | some (hi, wi) => do
    let h ← arrayAt "ifm_shape" ifm_shape hi
    let w ← arrayAt "ifm_shape" ifm_shape wi
    pure ((ifm_shape.set hi (h * 2)).set wi (w * 2))

/-- Modelled from the spec: the output size along one axis,
`floor((in_size + pad_near + pad_far - effective_kernel) / stride) + 1` with
`effective_kernel = (kernel_size - 1) * dilation + 1`.  The spec gives no meaning to a
zero stride; `Int.fdiv` makes the quotient 0 there. -/
def outSize (in_size pad_near pad_far kernel_size dilation stride : Int) : Int :=
  Int.fdiv (in_size + pad_near + pad_far - ((kernel_size - 1) * dilation + 1)) stride + 1

/-- Modelled from the spec: `EthosuInferKernelOutput` of `common.cc`.  The input sizes are
read at the positions `ifm_layout` gives, padding is (top, left, bottom, right), and the
result is laid out per `ofm_layout` with batch 1: `(1, h, w, c)` for NHWC and
`(1, h, c // 16, w, 16)` for NHCWB16.  An unknown layout tag is `UnsupportedLayout`, a
dimension of the result that is not positive is `InvalidGeometry`. -/
def EthosuInferKernelOutput (ifm_shape : List Int) (ifm_layout ofm_layout : String)
    (kernel_shape : List Int) (ofm_channels : Int) (dilation strides padding : List Int) :
    Except RelError (List Int) :=
  match layoutHeightWidth ifm_layout, layoutHeightWidth ofm_layout with
  | some (hi, wi), some _ => do
    let in_h ← arrayAt "ifm_shape" ifm_shape hi
    let in_w ← arrayAt "ifm_shape" ifm_shape wi
    let kernel_h ← arrayAt "kernel_shape" kernel_shape 0
    let kernel_w ← arrayAt "kernel_shape" kernel_shape 1
    let dilation_h ← arrayAt "dilation" dilation 0
    let dilation_w ← arrayAt "dilation" dilation 1
    let stride_h ← arrayAt "strides" strides 0
    let stride_w ← arrayAt "strides" strides 1
    let pad_top ← arrayAt "padding" padding 0
    let pad_left ← arrayAt "padding" padding 1
    let pad_bottom ← arrayAt "padding" padding 2
    let pad_right ← arrayAt "padding" padding 3
    let out_h := outSize in_h pad_top pad_bottom kernel_h dilation_h stride_h
    let out_w := outSize in_w pad_left pad_right kernel_w dilation_w stride_w
    let ofm_shape :=
      if ofm_layout = "NHWC" then [1, out_h, out_w, ofm_channels]
      else [1, out_h, Int.fdiv ofm_channels 16, out_w, 16]
    if ofm_shape.all (fun d => decide (0 < d)) then pure ofm_shape
    else Except.error RelError.InvalidGeometry
  | _, _ => Except.error RelError.UnsupportedLayout

/-- The set `upscale_methods` of the relation. -/
def upscale_methods : List String := ["NONE", "ZEROS", "NEAREST"]

/-- The statement `EmitFatal(diag); return false;`: the diagnostic is recorded, the
invocation fails with the given kind and the slots stay as they are. -/
def EmitFatal (types : List RelayType) (kind : RelError) (diag : Diagnostic) : RelResult :=
  ⟨RelStatus.failed kind, types, [diag]⟩

/-- An abnormal exit that emits no diagnostic of its own. -/
def abort (types : List RelayType) (e : RelError) : RelResult :=
  ⟨RelStatus.failed e, types, []⟩

/-- Lines 166-185 of `EthosuConv2DRel`: the three assignments, in the order scale-bias,
weight, ofm.  The elements of a braced list are evaluated left to right, so the reads
`kernel_shape[0]`, `kernel_shape[1]`, `weight->shape[3]` fail in that order; a null
`ofm_channels` is copied into the shape without a check and is rejected when the shape
is unified. -/
def resolveShapes (types : List RelayType) (ifm weight : TensorTypeNode)
    (param : EthosuConv2DAttrs) : RelResult :=
  -- reporter->Assign(types[2], TensorType({weight->shape[0], 10}, DataType::UInt(8)))
  match arrayAt "weight.shape" weight.shape 0 with
  | Except.error e => abort types e
  | Except.ok w0 =>
  match Assign types 2 ⟨[w0, 10], DataType.UInt 8⟩ with
  | none => abort types (RelError.ShapeConflict 2)
  | some types1 =>
  -- reporter->Assign(types[1], TensorType({ofm_channels, kernel_shape[0],
  --                                        kernel_shape[1], weight->shape[3]}, weight->dtype))
  match param.kernel_shape with
  | none => abort types1 (RelError.NullValue "kernel_shape")
  | some kernel_shape =>
  match arrayAt "kernel_shape" kernel_shape 0 with
  | Except.error e => abort types1 e
  | Except.ok k0 =>
  match arrayAt "kernel_shape" kernel_shape 1 with
  | Except.error e => abort types1 e
  | Except.ok k1 =>
  match arrayAt "weight.shape" weight.shape 3 with
  | Except.error e => abort types1 e
  | Except.ok w3 =>
  match param.ofm_channels with
  | none => abort types1 (RelError.NullValue "ofm_channels")
  | some ofm_channels =>
  match Assign types1 1 ⟨[ofm_channels, k0, k1, w3], weight.dtype⟩ with
  | none => abort types1 (RelError.ShapeConflict 1)
  | some types2 =>
  -- if (param->upscale != "NONE") ifm_shape = EthosuInferUpscaledInput(...)
  match (if param.upscale ≠ "NONE" then EthosuInferUpscaledInput ifm.shape param.ifm_layout
         else Except.ok ifm.shape) with
  | Except.error e => abort types2 e
  | Except.ok ifm_shape =>
  match EthosuInferKernelOutput ifm_shape param.ifm_layout param.ofm_layout kernel_shape
      ofm_channels param.dilation param.strides param.padding with
  | Except.error e => abort types2 e
  | Except.ok ofm_shape =>
  -- reporter->Assign(types[4], TensorType(ofm_shape, ifm->dtype)); return true;
  match Assign types2 4 ⟨ofm_shape, ifm.dtype⟩ with
  | none => abort types2 (RelError.ShapeConflict 4)
  | some types3 => ⟨RelStatus.resolved, types3, []⟩

/-- The type relation `EthosuConv2DRel(types, num_inputs, attrs, reporter)`.  `attrs` is
`none` when `attrs.as<EthosuConv2DAttrs>()` is null. -/
def EthosuConv2DRel (types : List RelayType) (_num_inputs : Int)
    (attrs : Option EthosuConv2DAttrs) : RelResult :=
  -- CHECK_EQ(types.size(), 5)
  match types with
  | [t0, t1, t2, _, _] =>
    -- if (ifm == nullptr || weight == nullptr) return false;
    match t0.asTensorTypeNode, t1.asTensorTypeNode with
    | some ifm, some weight =>
      -- CHECK(param != nullptr)
      match attrs with
      | none => abort types RelError.NullAttrs
      | some param =>
        if ifm.dtype ≠ DataType.UInt 8 ∧ ifm.dtype ≠ DataType.Int 8 then
          EmitFatal types RelError.UnsupportedDType (Diagnostic.dtype "input" ifm.dtype)
        else if weight.dtype ≠ DataType.UInt 8 ∧ weight.dtype ≠ DataType.Int 8 then
          EmitFatal types RelError.UnsupportedDType (Diagnostic.dtype "weight" weight.dtype)
        else
          -- scale_bias->dtype is read without a null check
          match t2.asTensorTypeNode with
          | none => abort types RelError.NullDereference
          | some scale_bias =>
            if scale_bias.dtype ≠ DataType.UInt 8 then
              EmitFatal types RelError.UnsupportedDType
                (Diagnostic.dtype "scale bias" scale_bias.dtype)
            else if ¬ (param.upscale ∈ upscale_methods) then
              EmitFatal types RelError.InvalidEnumValue
                (Diagnostic.upscaleMethod param.upscale)
            else resolveShapes types ifm weight param
    | _, _ => ⟨RelStatus.deferred, types, []⟩
  | _ => abort types RelError.ArityMismatch

/-! ## Concrete calls used as examples -/

/-- The attributes `kernel_shape = (3,3)`, `ofm_channels = 16`, everything else default. -/
def attrs3x3 : EthosuConv2DAttrs :=
  { EthosuConv2DAttrs.withDefaults 1.0 0 0 1.0 0 with
    kernel_shape := some [3, 3], ofm_channels := some 16 }

/-- The ifm type `(1,32,32,8)` int8. -/
def ifm32 : RelayType := RelayType.tensor ⟨[1, 32, 32, 8], DataType.Int 8⟩

/-- The weight type `(16,3,3,8)` int8. -/
def weight3x3 : RelayType := RelayType.tensor ⟨[16, 3, 3, 8], DataType.Int 8⟩

/-- The scale-bias type `(16,10)` uint8. -/
def scaleBias16 : RelayType := RelayType.tensor ⟨[16, 10], DataType.UInt 8⟩

/-! ## Construction of the call node -/

/-- A call node as `MakeEthosuConv2D` builds it: the operator name, the argument
expressions in order, and the attributes.  `Expr` is the expression type of the host. -/
structure Call (Expr : Type) where
  op : String
  args : List Expr
  attrs : EthosuConv2DAttrs

/-- The constructor `MakeEthosuConv2D`: every attribute argument is stored in the field of
the same name, nothing is checked, and the call has the four inputs as arguments.
`kernel_shape` and `ofm_channels` may be null. -/
def MakeEthosuConv2D {Expr : Type} (ifm weight scale_bias lut : Expr) (ifm_scale : Float)
    (ifm_zero_point weight_zero_point : Int) (ofm_scale : Float) (ofm_zero_point : Int)
    (kernel_shape : Option (List Int)) (ofm_channels : Option Int)
    (strides padding dilation : List Int) (activation : String) (clip_min clip_max : Int)
    (rounding_mode upscale ifm_layout ofm_layout : String) : Call Expr where
  op := "contrib.ethosu.conv2d"
  args := [ifm, weight, scale_bias, lut]
  attrs :=
    { ifm_scale := ifm_scale
      ifm_zero_point := ifm_zero_point
      weight_zero_point := weight_zero_point
      ofm_scale := ofm_scale
      ofm_zero_point := ofm_zero_point
      kernel_shape := kernel_shape
      ofm_channels := ofm_channels
      strides := strides
      padding := padding
      dilation := dilation
      activation := activation
      clip_min := clip_min
      clip_max := clip_max
      rounding_mode := rounding_mode
      upscale := upscale
      ifm_layout := ifm_layout
      ofm_layout := ofm_layout }

/-! ## Lemmas on the operations -/

theorem arrayAt_ok {name : String} {xs : List Int} {i : Nat} {v : Int} :
    arrayAt name xs i = Except.ok v ↔ xs[i]? = some v := by
  unfold arrayAt
  cases h : xs[i]? <;> simp

theorem arrayAt_error {name : String} {xs : List Int} {i : Nat} {e : RelError} :
    arrayAt name xs i = Except.error e → e = RelError.IndexOutOfRange name i := by
  unfold arrayAt
  cases h : xs[i]? <;> simp
  intro h; exact h.symm

/-- Assigning to slot 2 when it already holds a tensor type only confirms that type. -/
theorem Assign_two_tensor {t0 t1 t3 t4 : RelayType} {sb src : TensorTypeNode}
    {ts : List RelayType} :
    Assign [t0, t1, RelayType.tensor sb, t3, t4] 2 src = some ts ↔
      sb = src ∧ ts = [t0, t1, RelayType.tensor sb, t3, t4] := by
  by_cases h : sb = src <;> simp [Assign, h, eq_comm]

/-- Assigning to slot 1 when it already holds a tensor type only confirms that type. -/
theorem Assign_one_tensor {t0 t2 t3 t4 : RelayType} {w src : TensorTypeNode}
    {ts : List RelayType} :
    Assign [t0, RelayType.tensor w, t2, t3, t4] 1 src = some ts ↔
      w = src ∧ ts = [t0, RelayType.tensor w, t2, t3, t4] := by
  by_cases h : w = src <;> simp [Assign, h, eq_comm]

/-- Assigning to slot 4 fills an unresolved slot or confirms the type it holds. -/
theorem Assign_four {t0 t1 t2 t3 t4 : RelayType} {src : TensorTypeNode}
    {ts : List RelayType} :
    Assign [t0, t1, t2, t3, t4] 4 src = some ts ↔
      (t4 = RelayType.incomplete ∨ t4 = RelayType.tensor src) ∧
        ts = [t0, t1, t2, t3, RelayType.tensor src] := by
  cases t4 with
  | tensor t =>
    by_cases h : t = src
    · subst h; simp [Assign, eq_comm]
    · have h2 : ¬ src = t := fun e => h e.symm
      simp [Assign, h, h2]
  | incomplete => simp [Assign, eq_comm]
  | other => simp [Assign]

/-- What the kernel-output computation can fail with. -/
theorem EthosuInferKernelOutput_error {ifm_shape : List Int} {ifm_layout ofm_layout : String}
    {kernel_shape : List Int} {ofm_channels : Int} {dilation strides padding : List Int}
    {e : RelError}
    (h : EthosuInferKernelOutput ifm_shape ifm_layout ofm_layout kernel_shape ofm_channels
      dilation strides padding = Except.error e) :
    (∃ n i, e = RelError.IndexOutOfRange n i) ∨ e = RelError.UnsupportedLayout ∨
      e = RelError.InvalidGeometry := by
  unfold EthosuInferKernelOutput at h
  split at h
  · simp only [bind, Except.bind, pure, Except.pure] at h
    repeat (split at h <;> first
      | (rename_i e2 he2; cases h; exact Or.inl ⟨_, _, arrayAt_error he2⟩)
      | skip)
    all_goals (try split at h)
    all_goals (cases h <;> exact Or.inr (Or.inr rfl))
  · cases h; exact Or.inr (Or.inl rfl)

/-- A successful kernel-output computation, read backwards: the layouts are known, every
read is in range, the result is the formula laid out per `ofm_layout`, and all its
dimensions are positive. -/
theorem EthosuInferKernelOutput_ok {ifm_shape : List Int} {ifm_layout ofm_layout : String}
    {kernel_shape : List Int} {ofm_channels : Int} {dilation strides padding : List Int}
    {s : List Int}
    (h : EthosuInferKernelOutput ifm_shape ifm_layout ofm_layout kernel_shape ofm_channels
      dilation strides padding = Except.ok s) :
    ∃ hi wi in_h in_w kh kw dh dw sh sw pt pl pb pr,
      layoutHeightWidth ifm_layout = some (hi, wi) ∧
      (ofm_layout = "NHWC" ∨ ofm_layout = "NHCWB16") ∧
      ifm_shape[hi]? = some in_h ∧ ifm_shape[wi]? = some in_w ∧
      kernel_shape[0]? = some kh ∧ kernel_shape[1]? = some kw ∧
      dilation[0]? = some dh ∧ dilation[1]? = some dw ∧
      strides[0]? = some sh ∧ strides[1]? = some sw ∧
      padding[0]? = some pt ∧ padding[1]? = some pl ∧
      padding[2]? = some pb ∧ padding[3]? = some pr ∧
      s = (if ofm_layout = "NHWC"
            then [1, outSize in_h pt pb kh dh sh, outSize in_w pl pr kw dw sw, ofm_channels]
            else [1, outSize in_h pt pb kh dh sh, Int.fdiv ofm_channels 16,
              outSize in_w pl pr kw dw sw, 16]) ∧
      ∀ d ∈ s, 0 < d := by
  unfold EthosuInferKernelOutput at h
  split at h
  · rename_i hi wi v hl1 hl2
    simp only [bind, Except.bind, pure, Except.pure] at h
    iterate 12 (split at h <;> first | contradiction | skip)
    rename_i _ in_h h1 _ in_w h2 _ kh h3 _ kw h4 _ dh h5 _ dw h6 _ sh h7 _ sw h8 _ pt h9
      _ pl h10 _ pb h11 _ pr h12
    rw [arrayAt_ok] at h1 h2 h3 h4 h5 h6 h7 h8 h9 h10 h11 h12
    have hol : ofm_layout = "NHWC" ∨ ofm_layout = "NHCWB16" := by
      unfold layoutHeightWidth at hl2
      by_cases c1 : ofm_layout = "NHWC"
      · exact Or.inl c1
      · by_cases c2 : ofm_layout = "NHCWB16"
        · exact Or.inr c2
        · simp [c1, c2] at hl2
    split at h <;> split at h
    · rename_i hN hall
      cases h
      refine ⟨hi, wi, in_h, in_w, kh, kw, dh, dw, sh, sw, pt, pl, pb, pr, hl1, hol, h1, h2, h3,
        h4, h5, h6, h7, h8, h9, h10, h11, h12, (if_pos hN).symm, ?_⟩
      intro d hd
      have hd2 := List.all_eq_true.mp hall d hd
      simpa using hd2
    · cases h
    · rename_i hN hall
      cases h
      refine ⟨hi, wi, in_h, in_w, kh, kw, dh, dw, sh, sw, pt, pl, pb, pr, hl1, hol, h1, h2, h3,
        h4, h5, h6, h7, h8, h9, h10, h11, h12, (if_neg hN).symm, ?_⟩
      intro d hd
      have hd2 := List.all_eq_true.mp hall d hd
      simpa using hd2
    · cases h
  · cases h

/-- What the upscaled-input computation can fail with. -/
theorem EthosuInferUpscaledInput_error {ifm_shape : List Int} {ifm_layout : String}
    {e : RelError}
    (h : EthosuInferUpscaledInput ifm_shape ifm_layout = Except.error e) :
    (∃ n i, e = RelError.IndexOutOfRange n i) ∨ e = RelError.UnsupportedLayout := by
  unfold EthosuInferUpscaledInput at h
  split at h
  · cases h; exact Or.inr rfl
  · simp only [bind, Except.bind, pure, Except.pure] at h
    repeat (split at h <;> first
      | (rename_i e2 he2; cases h; exact Or.inl ⟨_, _, arrayAt_error he2⟩)
      | skip)
    all_goals cases h

/-- A successful run of the three assignments, read backwards: what the entry types and
the attributes must have been, and what the slots hold afterwards. -/
theorem resolveShapes_resolved {ifm weight sb : TensorTypeNode} {t3 t4 : RelayType}
    {param : EthosuConv2DAttrs} {r : RelResult}
    (h : resolveShapes [RelayType.tensor ifm, RelayType.tensor weight, RelayType.tensor sb, t3, t4]
      ifm weight param = r)
    (hs : r.status = RelStatus.resolved) :
    ∃ ks k0 k1 w3 oc ifm_shape ofm_shape,
      param.kernel_shape = some ks ∧ ks[0]? = some k0 ∧ ks[1]? = some k1 ∧
      param.ofm_channels = some oc ∧
      weight.shape = [oc, k0, k1, w3] ∧ sb = ⟨[oc, 10], DataType.UInt 8⟩ ∧
      (if param.upscale ≠ "NONE" then EthosuInferUpscaledInput ifm.shape param.ifm_layout
        else Except.ok ifm.shape) = Except.ok ifm_shape ∧
      EthosuInferKernelOutput ifm_shape param.ifm_layout param.ofm_layout ks oc
        param.dilation param.strides param.padding = Except.ok ofm_shape ∧
      (t4 = RelayType.incomplete ∨ t4 = RelayType.tensor ⟨ofm_shape, ifm.dtype⟩) ∧
      r = ⟨RelStatus.resolved, [RelayType.tensor ifm, RelayType.tensor weight,
        RelayType.tensor sb, t3, RelayType.tensor ⟨ofm_shape, ifm.dtype⟩], []⟩ := by
  unfold resolveShapes at h
  repeat (split at h <;> first | (subst h; simp [abort] at hs; done) | skip)
  rename_i _ w0 hw0 _ types1 h1 _ ks hks _ k0 hk0 _ k1 hk1 _ w3 hw3 _ oc hoc _ types2 h2
    _ ifm_shape hup _ ofm_shape hko _ types3 h3
  rw [Assign_two_tensor] at h1
  obtain ⟨hsb, rfl⟩ := h1
  rw [Assign_one_tensor] at h2
  obtain ⟨hw, rfl⟩ := h2
  rw [Assign_four] at h3
  obtain ⟨h4, rfl⟩ := h3
  rw [arrayAt_ok] at hw0 hk0 hk1 hw3
  have hshape : weight.shape = [oc, k0, k1, w3] := congrArg TensorTypeNode.shape hw
  rw [hshape] at hw0
  simp at hw0
  subst hw0
  exact ⟨ks, k0, k1, w3, _, ifm_shape, ofm_shape, hks, hk0, hk1, hoc, hshape, hsb, hup, hko,
    h4, h.symm⟩

theorem asTensorTypeNode_eq_some {t : RelayType} {x : TensorTypeNode} :
    t.asTensorTypeNode = some x ↔ t = RelayType.tensor x := by
  cases t <;> simp [RelayType.asTensorTypeNode]

/-- What the three assignments can fail with. -/
theorem resolveShapes_failed {types : List RelayType} {ifm weight : TensorTypeNode}
    {param : EthosuConv2DAttrs} {e : RelError}
    (h : (resolveShapes types ifm weight param).status = RelStatus.failed e) :
    (∃ n i, e = RelError.IndexOutOfRange n i) ∨ (∃ f, e = RelError.NullValue f) ∨
      (∃ s, e = RelError.ShapeConflict s) ∨ e = RelError.UnsupportedLayout ∨
      e = RelError.InvalidGeometry := by
  unfold resolveShapes at h
  repeat (split at h <;> first
    | (rename_i e1 he
       simp only [abort, RelStatus.failed.injEq] at h
       subst h
       first
        | exact Or.inl ⟨_, _, arrayAt_error he⟩
        | (rcases EthosuInferKernelOutput_error he with ⟨a, b, rfl⟩ | rfl | rfl <;> simp)
        | (split at he
           · rcases EthosuInferUpscaledInput_error he with ⟨a, b, rfl⟩ | rfl <;> simp
           · cases he))
    | (simp only [abort, RelStatus.failed.injEq] at h; subst h; simp)
    | (simp at h; done)
    | skip)

/-- A successful invocation, read backwards. -/
theorem EthosuConv2DRel_resolved {types : List RelayType} {n : Int}
    {attrs : Option EthosuConv2DAttrs}
    (hs : (EthosuConv2DRel types n attrs).status = RelStatus.resolved) :
    ∃ ifm weight sb t3 t4 param ks k0 k1 w3 oc ifm_shape ofm_shape,
      types = [RelayType.tensor ifm, RelayType.tensor weight, RelayType.tensor sb, t3, t4] ∧
      attrs = some param ∧
      (ifm.dtype = DataType.UInt 8 ∨ ifm.dtype = DataType.Int 8) ∧
      (weight.dtype = DataType.UInt 8 ∨ weight.dtype = DataType.Int 8) ∧
      param.upscale ∈ upscale_methods ∧
      param.kernel_shape = some ks ∧ ks[0]? = some k0 ∧ ks[1]? = some k1 ∧
      param.ofm_channels = some oc ∧
      weight.shape = [oc, k0, k1, w3] ∧ sb = ⟨[oc, 10], DataType.UInt 8⟩ ∧
      (if param.upscale ≠ "NONE" then EthosuInferUpscaledInput ifm.shape param.ifm_layout
        else Except.ok ifm.shape) = Except.ok ifm_shape ∧
      EthosuInferKernelOutput ifm_shape param.ifm_layout param.ofm_layout ks oc
        param.dilation param.strides param.padding = Except.ok ofm_shape ∧
      (t4 = RelayType.incomplete ∨ t4 = RelayType.tensor ⟨ofm_shape, ifm.dtype⟩) ∧
      EthosuConv2DRel types n attrs = ⟨RelStatus.resolved, [RelayType.tensor ifm,
        RelayType.tensor weight, RelayType.tensor sb, t3,
        RelayType.tensor ⟨ofm_shape, ifm.dtype⟩], []⟩ := by
  unfold EthosuConv2DRel at hs ⊢
  repeat (split at hs <;> first | (simp [abort, EmitFatal] at hs; done) | skip)
  rename_i _ t0 t1 t2 t3 t4 _ _ ifm weight h0 h1 _ param hi hw _ sb h2 hsb hup
  rw [asTensorTypeNode_eq_some] at h0 h1 h2
  subst h0 h1 h2
  obtain ⟨ks, k0, k1, w3, oc, ifm_shape, ofm_shape, a1, a2, a3, a4, a5, a6, a7, a8, a9, a10⟩ :=
    resolveShapes_resolved rfl hs
  refine ⟨ifm, weight, sb, t3, t4, param, ks, k0, k1, w3, oc, ifm_shape, ofm_shape, rfl, rfl,
    by tauto, by tauto, not_not.mp hup, a1, a2, a3, a4, a5, a6, a7, a8, a9, ?_⟩
  rw [if_neg hi, if_neg hw, if_neg hsb, if_neg hup]
  exact a10

/-- With concrete ifm and weight of legal dtypes, non-null attributes and a scale-bias
slot that is not a concrete tensor type, the relation always ends in the null read. -/
theorem unresolved_scale_bias_null_dereference (ifm weight : TensorTypeNode)
    (t2 t3 t4 : RelayType) (n : Int) (param : EthosuConv2DAttrs)
    (hi : ifm.dtype = DataType.Int 8 ∨ ifm.dtype = DataType.UInt 8)
    (hw : weight.dtype = DataType.Int 8 ∨ weight.dtype = DataType.UInt 8)
    (h2 : t2.asTensorTypeNode = none) :
    EthosuConv2DRel [RelayType.tensor ifm, RelayType.tensor weight, t2, t3, t4] n
        (some param) =
      ⟨RelStatus.failed RelError.NullDereference,
        [RelayType.tensor ifm, RelayType.tensor weight, t2, t3, t4], []⟩ := by
  have h1 : ¬ (ifm.dtype ≠ DataType.UInt 8 ∧ ifm.dtype ≠ DataType.Int 8) := by tauto
  have h3 : ¬ (weight.dtype ≠ DataType.UInt 8 ∧ weight.dtype ≠ DataType.Int 8) := by tauto
  cases t2 with
  | tensor t => simp [RelayType.asTensorTypeNode] at h2
  | incomplete =>
    unfold EthosuConv2DRel
    simp only [RelayType.asTensorTypeNode]
    rw [if_neg h1, if_neg h3]
    rfl
  | other =>
    unfold EthosuConv2DRel
    simp only [RelayType.asTensorTypeNode]
    rw [if_neg h1, if_neg h3]
    rfl

/-- The three assignments emit no diagnostic. -/
theorem resolveShapes_diags (types : List RelayType) (ifm weight : TensorTypeNode)
    (param : EthosuConv2DAttrs) : (resolveShapes types ifm weight param).diags = [] := by
  unfold resolveShapes
  repeat (split <;> first | rfl | skip)

/-- The axis mapping, read backwards. -/
theorem layoutHeightWidth_eq_some {layout : String} {hi wi : Nat}
    (h : layoutHeightWidth layout = some (hi, wi)) :
    (layout = "NHWC" ∧ hi = 1 ∧ wi = 2) ∨ (layout = "NHCWB16" ∧ hi = 1 ∧ wi = 3) := by
  unfold layoutHeightWidth at h
  split at h
  · rename_i c; simp at h; exact Or.inl ⟨c, h.1.symm, h.2.symm⟩
  · split at h
    · rename_i c; simp at h; exact Or.inr ⟨c, h.1.symm, h.2.symm⟩
    · cases h

/-- A successful upscaled-input computation, read backwards. -/
theorem EthosuInferUpscaledInput_ok {ifm_shape : List Int} {ifm_layout : String}
    {s : List Int} (h : EthosuInferUpscaledInput ifm_shape ifm_layout = Except.ok s) :
    ∃ hi wi ht wd, layoutHeightWidth ifm_layout = some (hi, wi) ∧
      ifm_shape[hi]? = some ht ∧ ifm_shape[wi]? = some wd ∧
      s = (ifm_shape.set hi (ht * 2)).set wi (wd * 2) := by
  unfold EthosuInferUpscaledInput at h
  split at h
  · cases h
  · rename_i hi wi hl
    simp only [bind, Except.bind, pure, Except.pure] at h
    iterate 2 (split at h <;> first | contradiction | skip)
    rename_i _ ht h1 _ wd h2
    rw [arrayAt_ok] at h1 h2
    cases h
    exact ⟨hi, wi, ht, wd, hl, h1, h2, rfl⟩

/-- With stride 1, dilation 1 and no padding the output size is `in - kernel + 1`. -/
theorem outSize_unit (in_size kernel_size : Int) :
    outSize in_size 0 0 kernel_size 1 1 = in_size - kernel_size + 1 := by
  unfold outSize
  rw [Int.fdiv_one]
  ring

/-- A successful invocation, read forwards: the conditions that `EthosuConv2DRel_resolved`
finds are also sufficient. -/
theorem EthosuConv2DRel_intro {ifm weight : TensorTypeNode} {t3 t4 : RelayType} {n : Int}
    {param : EthosuConv2DAttrs} {ks : List Int} {k0 k1 w3 oc : Int}
    {eff ofm_shape : List Int}
    (hid : ifm.dtype = DataType.UInt 8 ∨ ifm.dtype = DataType.Int 8)
    (hwd : weight.dtype = DataType.UInt 8 ∨ weight.dtype = DataType.Int 8)
    (hup : param.upscale ∈ upscale_methods)
    (hks : param.kernel_shape = some ks) (hk0 : ks[0]? = some k0) (hk1 : ks[1]? = some k1)
    (hoc : param.ofm_channels = some oc)
    (hws : weight.shape = [oc, k0, k1, w3])
    (heff : (if param.upscale ≠ "NONE" then EthosuInferUpscaledInput ifm.shape param.ifm_layout
        else Except.ok ifm.shape) = Except.ok eff)
    (hko : EthosuInferKernelOutput eff param.ifm_layout param.ofm_layout ks oc
        param.dilation param.strides param.padding = Except.ok ofm_shape)
    (h4 : t4 = RelayType.incomplete ∨ t4 = RelayType.tensor ⟨ofm_shape, ifm.dtype⟩) :
    EthosuConv2DRel [RelayType.tensor ifm, RelayType.tensor weight,
        RelayType.tensor ⟨[oc, 10], DataType.UInt 8⟩, t3, t4] n (some param) =
      ⟨RelStatus.resolved, [RelayType.tensor ifm, RelayType.tensor weight,
        RelayType.tensor ⟨[oc, 10], DataType.UInt 8⟩, t3,
        RelayType.tensor ⟨ofm_shape, ifm.dtype⟩], []⟩ := by
  have c1 : ¬ (ifm.dtype ≠ DataType.UInt 8 ∧ ifm.dtype ≠ DataType.Int 8) := by tauto
  have c2 : ¬ (weight.dtype ≠ DataType.UInt 8 ∧ weight.dtype ≠ DataType.Int 8) := by tauto
  have c3 : ¬ ((⟨[oc, 10], DataType.UInt 8⟩ : TensorTypeNode).dtype ≠ DataType.UInt 8) := by
    simp
  have c4 : ¬ ¬ (param.upscale ∈ upscale_methods) := not_not.mpr hup
  have e0 : arrayAt "weight.shape" weight.shape 0 = Except.ok oc :=
    arrayAt_ok.mpr (by rw [hws]; rfl)
  have e3 : arrayAt "weight.shape" weight.shape 3 = Except.ok w3 :=
    arrayAt_ok.mpr (by rw [hws]; rfl)
  have ek0 : arrayAt "kernel_shape" ks 0 = Except.ok k0 := arrayAt_ok.mpr hk0
  have ek1 : arrayAt "kernel_shape" ks 1 = Except.ok k1 := arrayAt_ok.mpr hk1
  have hw : weight = ⟨[oc, k0, k1, w3], weight.dtype⟩ := by
    cases weight; simp at hws; simp [hws]
  have a2 : Assign [RelayType.tensor ifm, RelayType.tensor weight,
      RelayType.tensor ⟨[oc, 10], DataType.UInt 8⟩, t3, t4] 2 ⟨[oc, 10], DataType.UInt 8⟩ =
      some [RelayType.tensor ifm, RelayType.tensor weight,
        RelayType.tensor ⟨[oc, 10], DataType.UInt 8⟩, t3, t4] :=
    Assign_two_tensor.mpr ⟨rfl, rfl⟩
  have a1 : Assign [RelayType.tensor ifm, RelayType.tensor weight,
      RelayType.tensor ⟨[oc, 10], DataType.UInt 8⟩, t3, t4] 1
      ⟨[oc, k0, k1, w3], weight.dtype⟩ =
      some [RelayType.tensor ifm, RelayType.tensor weight,
        RelayType.tensor ⟨[oc, 10], DataType.UInt 8⟩, t3, t4] :=
    Assign_one_tensor.mpr ⟨hw, rfl⟩
  have a4 : Assign [RelayType.tensor ifm, RelayType.tensor weight,
      RelayType.tensor ⟨[oc, 10], DataType.UInt 8⟩, t3, t4] 4 ⟨ofm_shape, ifm.dtype⟩ =
      some [RelayType.tensor ifm, RelayType.tensor weight,
        RelayType.tensor ⟨[oc, 10], DataType.UInt 8⟩, t3,
        RelayType.tensor ⟨ofm_shape, ifm.dtype⟩] :=
    Assign_four.mpr ⟨h4, rfl⟩
  unfold EthosuConv2DRel
  simp only [RelayType.asTensorTypeNode]
  rw [if_neg c1, if_neg c2, if_neg c3, if_neg c4]
  unfold resolveShapes
  simp only [e0, a2, hks, ek0, ek1, e3, hoc, a1, heff, hko, a4]

/-- Both supported layout tags have an axis mapping. -/
theorem layoutHeightWidth_isSome {layout : String}
    (h : layout = "NHWC" ∨ layout = "NHCWB16") : ∃ v, layoutHeightWidth layout = some v := by
  rcases h with h | h <;> subst h
  · exact ⟨(1, 2), by decide⟩
  · exact ⟨(1, 3), by decide⟩

/-- The kernel-output computation, read forwards: with known layouts and every read in
range its result is the formula, accepted when all its dimensions are positive. -/
theorem EthosuInferKernelOutput_eq {ifm_shape : List Int} {ifm_layout ofm_layout : String}
    {kernel_shape : List Int} {ofm_channels : Int} {dilation strides padding : List Int}
    {hi wi : Nat} {in_h in_w kh kw dh dw sh sw pt pl pb pr : Int}
    (hl : layoutHeightWidth ifm_layout = some (hi, wi))
    (hol : ofm_layout = "NHWC" ∨ ofm_layout = "NHCWB16")
    (h1 : ifm_shape[hi]? = some in_h) (h2 : ifm_shape[wi]? = some in_w)
    (h3 : kernel_shape[0]? = some kh) (h4 : kernel_shape[1]? = some kw)
    (h5 : dilation[0]? = some dh) (h6 : dilation[1]? = some dw)
    (h7 : strides[0]? = some sh) (h8 : strides[1]? = some sw)
    (h9 : padding[0]? = some pt) (h10 : padding[1]? = some pl)
    (h11 : padding[2]? = some pb) (h12 : padding[3]? = some pr) :
    EthosuInferKernelOutput ifm_shape ifm_layout ofm_layout kernel_shape ofm_channels
        dilation strides padding =
      if (if ofm_layout = "NHWC"
            then [1, outSize in_h pt pb kh dh sh, outSize in_w pl pr kw dw sw, ofm_channels]
            else [1, outSize in_h pt pb kh dh sh, Int.fdiv ofm_channels 16,
              outSize in_w pl pr kw dw sw, 16]).all (fun d => decide (0 < d))
      then Except.ok (if ofm_layout = "NHWC"
            then [1, outSize in_h pt pb kh dh sh, outSize in_w pl pr kw dw sw, ofm_channels]
            else [1, outSize in_h pt pb kh dh sh, Int.fdiv ofm_channels 16,
              outSize in_w pl pr kw dw sw, 16])
      else Except.error RelError.InvalidGeometry := by
  obtain ⟨v, hv⟩ := layoutHeightWidth_isSome hol
  unfold EthosuInferKernelOutput
  simp only [hl, hv, bind, Except.bind, pure, Except.pure, arrayAt_ok.mpr h1,
    arrayAt_ok.mpr h2, arrayAt_ok.mpr h3, arrayAt_ok.mpr h4, arrayAt_ok.mpr h5,
    arrayAt_ok.mpr h6, arrayAt_ok.mpr h7, arrayAt_ok.mpr h8, arrayAt_ok.mpr h9,
    arrayAt_ok.mpr h10, arrayAt_ok.mpr h11, arrayAt_ok.mpr h12]

/-- A call whose dtype and upscale checks pass and whose scale-bias and weight
assignments unify reaches the kernel-output computation with all slots as on entry; what
happens next depends on that computation and on the ofm slot only. -/
theorem EthosuConv2DRel_geometry {ifm weight : TensorTypeNode} {t3 t4 : RelayType} {n : Int}
    {param : EthosuConv2DAttrs} {ks : List Int} {k0 k1 w3 oc : Int} {eff : List Int}
    (hid : ifm.dtype = DataType.UInt 8 ∨ ifm.dtype = DataType.Int 8)
    (hwd : weight.dtype = DataType.UInt 8 ∨ weight.dtype = DataType.Int 8)
    (hup : param.upscale ∈ upscale_methods)
    (hks : param.kernel_shape = some ks) (hk0 : ks[0]? = some k0) (hk1 : ks[1]? = some k1)
    (hoc : param.ofm_channels = some oc)
    (hws : weight.shape = [oc, k0, k1, w3])
    (heff : (if param.upscale ≠ "NONE" then EthosuInferUpscaledInput ifm.shape param.ifm_layout
        else Except.ok ifm.shape) = Except.ok eff) :
    EthosuConv2DRel [RelayType.tensor ifm, RelayType.tensor weight,
        RelayType.tensor ⟨[oc, 10], DataType.UInt 8⟩, t3, t4] n (some param) =
      match EthosuInferKernelOutput eff param.ifm_layout param.ofm_layout ks oc
          param.dilation param.strides param.padding with
      | Except.error e =>
        abort [RelayType.tensor ifm, RelayType.tensor weight,
          RelayType.tensor ⟨[oc, 10], DataType.UInt 8⟩, t3, t4] e
      | Except.ok ofm_shape =>
        match Assign [RelayType.tensor ifm, RelayType.tensor weight,
          RelayType.tensor ⟨[oc, 10], DataType.UInt 8⟩, t3, t4] 4 ⟨ofm_shape, ifm.dtype⟩ with
        | none =>
          abort [RelayType.tensor ifm, RelayType.tensor weight,
            RelayType.tensor ⟨[oc, 10], DataType.UInt 8⟩, t3, t4] (RelError.ShapeConflict 4)
        | some types3 => ⟨RelStatus.resolved, types3, []⟩ := by
  have c1 : ¬ (ifm.dtype ≠ DataType.UInt 8 ∧ ifm.dtype ≠ DataType.Int 8) := by tauto
  have c2 : ¬ (weight.dtype ≠ DataType.UInt 8 ∧ weight.dtype ≠ DataType.Int 8) := by tauto
  have c3 : ¬ ((⟨[oc, 10], DataType.UInt 8⟩ : TensorTypeNode).dtype ≠ DataType.UInt 8) := by
    simp
  have c4 : ¬ ¬ (param.upscale ∈ upscale_methods) := not_not.mpr hup
  have e0 : arrayAt "weight.shape" weight.shape 0 = Except.ok oc :=
    arrayAt_ok.mpr (by rw [hws]; rfl)
  have e3 : arrayAt "weight.shape" weight.shape 3 = Except.ok w3 :=
    arrayAt_ok.mpr (by rw [hws]; rfl)
  have ek0 : arrayAt "kernel_shape" ks 0 = Except.ok k0 := arrayAt_ok.mpr hk0
  have ek1 : arrayAt "kernel_shape" ks 1 = Except.ok k1 := arrayAt_ok.mpr hk1
  have hw : weight = ⟨[oc, k0, k1, w3], weight.dtype⟩ := by
    cases weight; simp at hws; simp [hws]
  have a2 : Assign [RelayType.tensor ifm, RelayType.tensor weight,
      RelayType.tensor ⟨[oc, 10], DataType.UInt 8⟩, t3, t4] 2 ⟨[oc, 10], DataType.UInt 8⟩ =
      some [RelayType.tensor ifm, RelayType.tensor weight,
        RelayType.tensor ⟨[oc, 10], DataType.UInt 8⟩, t3, t4] :=
    Assign_two_tensor.mpr ⟨rfl, rfl⟩
  have a1 : Assign [RelayType.tensor ifm, RelayType.tensor weight,
      RelayType.tensor ⟨[oc, 10], DataType.UInt 8⟩, t3, t4] 1
      ⟨[oc, k0, k1, w3], weight.dtype⟩ =
      some [RelayType.tensor ifm, RelayType.tensor weight,
        RelayType.tensor ⟨[oc, 10], DataType.UInt 8⟩, t3, t4] :=
    Assign_one_tensor.mpr ⟨hw, rfl⟩
  unfold EthosuConv2DRel
  simp only [RelayType.asTensorTypeNode]
  rw [if_neg c1, if_neg c2, if_neg c3, if_neg c4]
  unfold resolveShapes
  simp only [e0, a2, hks, ek0, ek1, e3, hoc, a1, heff]

/-- With a positive stride the output size does not fall when the paddings grow. -/
theorem outSize_mono_padding {in_size pad_near pad_far pad_near2 pad_far2 kernel_size
    dilation stride : Int} (hs : 0 < stride) (hn : pad_near ≤ pad_near2)
    (hf : pad_far ≤ pad_far2) :
    outSize in_size pad_near pad_far kernel_size dilation stride ≤
      outSize in_size pad_near2 pad_far2 kernel_size dilation stride := by
  unfold outSize
  rw [Int.fdiv_eq_ediv _ (le_of_lt hs), Int.fdiv_eq_ediv _ (le_of_lt hs)]
  have h := Int.ediv_le_ediv hs
    (show in_size + pad_near + pad_far - ((kernel_size - 1) * dilation + 1) ≤
      in_size + pad_near2 + pad_far2 - ((kernel_size - 1) * dilation + 1) by linarith)
  linarith

/-- With positive strides and a positive output size, a larger stride gives an output size
that is still positive and not larger. -/
theorem outSize_anti_stride {in_size pad_near pad_far kernel_size dilation stride stride2 : Int}
    (hs : 0 < stride) (hle : stride ≤ stride2)
    (hpos : 0 < outSize in_size pad_near pad_far kernel_size dilation stride) :
    0 < outSize in_size pad_near pad_far kernel_size dilation stride2 ∧
      outSize in_size pad_near pad_far kernel_size dilation stride2 ≤
        outSize in_size pad_near pad_far kernel_size dilation stride := by
  have hs2 : 0 < stride2 := lt_of_lt_of_le hs hle
  unfold outSize at hpos ⊢
  rw [Int.fdiv_eq_ediv _ (le_of_lt hs)] at hpos ⊢
  rw [Int.fdiv_eq_ediv _ (le_of_lt hs2)]
  generalize in_size + pad_near + pad_far - ((kernel_size - 1) * dilation + 1) = num at hpos ⊢
  have hnum : 0 ≤ num := by
    by_contra hc
    have := Int.ediv_neg' (not_le.mp hc) hs
    omega
  have hq : 0 ≤ num / stride2 := Int.ediv_nonneg hnum (le_of_lt hs2)
  have hle2 : num / stride2 ≤ num / stride := by
    apply Int.le_ediv_of_mul_le hs
    calc num / stride2 * stride ≤ num / stride2 * stride2 :=
          mul_le_mul_of_nonneg_left hle hq
      _ ≤ num := Int.ediv_mul_le num (ne_of_gt hs2)
  constructor
  · omega
  · omega

/-- An assignment to a slot other than slot 3 commutes with a change of slot 3. -/
theorem Assign_set_three (ts : List RelayType) (x : RelayType) (i : Nat)
    (src : TensorTypeNode) (hi : i ≠ 3) :
    Assign (ts.set 3 x) i src = (Assign ts i src).map (fun r => r.set 3 x) := by
  unfold Assign
  rw [List.getElem?_set_ne (Ne.symm hi)]
  cases h : ts[i]? with
  | none => rfl
  | some t =>
    cases t with
    | tensor t =>
      by_cases c : t = src
      · simp [c]
      · simp [c]
    | incomplete =>
      simp only [Option.map]
      rw [List.set_comm _ _ _ (Ne.symm hi)]
    | other => rfl

/-- The three assignments do not look at slot 3 and do not touch it: changing it on entry
changes nothing but that slot in the result. -/
theorem resolveShapes_set_three (ts : List RelayType) (x : RelayType)
    (ifm weight : TensorTypeNode) (param : EthosuConv2DAttrs) :
    resolveShapes (ts.set 3 x) ifm weight param =
      ⟨(resolveShapes ts ifm weight param).status,
        (resolveShapes ts ifm weight param).types.set 3 x,
        (resolveShapes ts ifm weight param).diags⟩ := by
  unfold resolveShapes
  cases h0 : arrayAt "weight.shape" weight.shape 0 with
  | error e => rfl
  | ok w0 =>
  simp only [Assign_set_three _ _ _ _ (by decide : (2:Nat) ≠ 3)]
  cases h1 : Assign ts 2 ⟨[w0, 10], DataType.UInt 8⟩ with
  | none => rfl
  | some ts1 =>
  simp only [Option.map]
  cases h2 : param.kernel_shape with
  | none => rfl
  | some ks =>
  simp only []
  cases h3 : arrayAt "kernel_shape" ks 0 with
  | error e => rfl
  | ok k0 =>
  simp only []
  cases h4 : arrayAt "kernel_shape" ks 1 with
  | error e => rfl
  | ok k1 =>
  simp only []
  cases h5 : arrayAt "weight.shape" weight.shape 3 with
  | error e => rfl
  | ok w3 =>
  simp only []
  cases h6 : param.ofm_channels with
  | none => rfl
  | some oc =>
  simp only [Assign_set_three _ _ _ _ (by decide : (1:Nat) ≠ 3)]
  cases h7 : Assign ts1 1 ⟨[oc, k0, k1, w3], weight.dtype⟩ with
  | none => rfl
  | some ts2 =>
  simp only [Option.map]
  cases h8 : (if param.upscale ≠ "NONE" then
      EthosuInferUpscaledInput ifm.shape param.ifm_layout else Except.ok ifm.shape) with
  | error e => rfl
  | ok eff =>
  simp only []
  cases h9 : EthosuInferKernelOutput eff param.ifm_layout param.ofm_layout ks oc
      param.dilation param.strides param.padding with
  | error e => rfl
  | ok ofm_shape =>
  simp only [Assign_set_three _ _ _ _ (by decide : (4:Nat) ≠ 3)]
  cases h10 : Assign ts2 4 ⟨ofm_shape, ifm.dtype⟩ with
  | none => rfl
  | some ts3 => rfl

/-- Unless the three assignments succeed, they leave every slot as it was: the scale-bias
and weight slots are concrete when they are reached, so assigning to them only confirms
them, and the ofm slot is assigned last. -/
theorem resolveShapes_types_unchanged {ifm weight sb : TensorTypeNode} {t3 t4 : RelayType}
    {param : EthosuConv2DAttrs} {r : RelResult}
    (h : resolveShapes [RelayType.tensor ifm, RelayType.tensor weight, RelayType.tensor sb, t3, t4]
      ifm weight param = r)
    (hs : r.status ≠ RelStatus.resolved) :
    r.types = [RelayType.tensor ifm, RelayType.tensor weight, RelayType.tensor sb, t3, t4] := by
  unfold resolveShapes at h
  split at h
  · subst h; rfl
  split at h
  · subst h; rfl
  rename_i types1 h1
  rw [Assign_two_tensor] at h1
  obtain ⟨-, rfl⟩ := h1
  split at h
  · subst h; rfl
  split at h
  · subst h; rfl
  split at h
  · subst h; rfl
  split at h
  · subst h; rfl
  split at h
  · subst h; rfl
  split at h
  · subst h; rfl
  rename_i types2 h2
  rw [Assign_one_tensor] at h2
  obtain ⟨-, rfl⟩ := h2
  split at h
  · subst h; rfl
  split at h
  · subst h; rfl
  split at h
  · subst h; rfl
  · subst h; exact absurd rfl hs

/-- Unless the relation returns success, it leaves every slot as it was. -/
theorem EthosuConv2DRel_types_unchanged (types : List RelayType) (n : Int)
    (attrs : Option EthosuConv2DAttrs)
    (hs : (EthosuConv2DRel types n attrs).status ≠ RelStatus.resolved) :
    (EthosuConv2DRel types n attrs).types = types := by
  unfold EthosuConv2DRel at hs ⊢
  repeat (split <;> first | rfl | skip)
  rename_i _ t0 t1 t2 t3 t4 _ _ ifm weight h0 h1 _ param hi hw _ sb h2 hsb hup
  rw [asTensorTypeNode_eq_some] at h0 h1 h2
  subst h0 h1 h2
  simp only [RelayType.asTensorTypeNode] at hs
  rw [if_neg hi, if_neg hw, if_neg hsb, if_neg hup] at hs
  exact resolveShapes_types_unchanged rfl hs

/-- The relation emits at most one diagnostic. -/
theorem EthosuConv2DRel_diags_length (types : List RelayType) (n : Int)
    (attrs : Option EthosuConv2DAttrs) :
    (EthosuConv2DRel types n attrs).diags.length ≤ 1 := by
  unfold EthosuConv2DRel
  repeat (split <;> first | (simp [abort, EmitFatal]; done) | skip)
  rw [resolveShapes_diags]
  simp

/-- The relation does not look at slot 3 and does not touch it: changing it on entry
changes nothing but that slot in the result. -/
theorem EthosuConv2DRel_set_three (t0 t1 t2 lut lut2 t4 : RelayType) (n : Int)
    (attrs : Option EthosuConv2DAttrs) :
    EthosuConv2DRel [t0, t1, t2, lut2, t4] n attrs =
      ⟨(EthosuConv2DRel [t0, t1, t2, lut, t4] n attrs).status,
        (EthosuConv2DRel [t0, t1, t2, lut, t4] n attrs).types.set 3 lut2,
        (EthosuConv2DRel [t0, t1, t2, lut, t4] n attrs).diags⟩ := by
  unfold EthosuConv2DRel
  simp only []
  cases h0 : t0.asTensorTypeNode with
  | none => rfl
  | some ifm =>
  cases h1 : t1.asTensorTypeNode with
  | none => rfl
  | some weight =>
  simp only []
  cases attrs with
  | none => rfl
  | some param =>
  simp only []
  by_cases c1 : ifm.dtype ≠ DataType.UInt 8 ∧ ifm.dtype ≠ DataType.Int 8
  · simp only [if_pos c1]; rfl
  simp only [if_neg c1]
  by_cases c2 : weight.dtype ≠ DataType.UInt 8 ∧ weight.dtype ≠ DataType.Int 8
  · simp only [if_pos c2]; rfl
  simp only [if_neg c2]
  cases h2 : t2.asTensorTypeNode with
  | none => rfl
  | some sb =>
  simp only []
  by_cases c3 : sb.dtype ≠ DataType.UInt 8
  · simp only [if_pos c3]; rfl
  simp only [if_neg c3]
  by_cases c4 : ¬ (param.upscale ∈ upscale_methods)
  · simp only [if_pos c4]; rfl
  simp only [if_neg c4]
  exact resolveShapes_set_three [t0, t1, t2, lut, t4] lut2 ifm weight param

/-- A failed read names its array and index, and the index is beyond the array. -/
theorem arrayAt_error_length {name : String} {xs : List Int} {i : Nat} {e : RelError}
    (h : arrayAt name xs i = Except.error e) :
    e = RelError.IndexOutOfRange name i ∧ xs.length ≤ i := by
  unfold arrayAt at h
  cases hx : xs[i]? with
  | none =>
    rw [hx] at h
    simp only [Except.error.injEq] at h
    exact ⟨h.symm, List.getElem?_eq_none_iff.mp hx⟩
  | some v =>
    rw [hx] at h
    cases h

/-- With at least two kernel entries, the kernel-output computation never fails on a read
of the kernel shape, and it never reads the weight shape. -/
theorem EthosuInferKernelOutput_reads {ifm_shape : List Int} {ifm_layout ofm_layout : String}
    {kernel_shape : List Int} {ofm_channels : Int} {dilation strides padding : List Int}
    {name : String} {i : Nat} (hk : 2 ≤ kernel_shape.length)
    (h : EthosuInferKernelOutput ifm_shape ifm_layout ofm_layout kernel_shape ofm_channels
      dilation strides padding = Except.error (RelError.IndexOutOfRange name i)) :
    name ≠ "weight.shape" ∧ name ≠ "kernel_shape" := by
  unfold EthosuInferKernelOutput at h
  split at h
  · simp only [bind, Except.bind, pure, Except.pure] at h
    repeat (split at h <;> first
      | (rename_i e2 he2
         cases h
         obtain ⟨hh, hl⟩ := arrayAt_error_length he2
         cases hh
         exact ⟨by decide, by first | decide | (intro; omega)⟩)
      | skip)
    all_goals (try split at h)
    all_goals cases h
  · cases h

/-- The upscaled-input computation never reads the weight shape or the kernel shape. -/
theorem EthosuInferUpscaledInput_reads {ifm_shape : List Int} {ifm_layout : String}
    {name : String} {i : Nat}
    (h : EthosuInferUpscaledInput ifm_shape ifm_layout =
      Except.error (RelError.IndexOutOfRange name i)) :
    name ≠ "weight.shape" ∧ name ≠ "kernel_shape" := by
  unfold EthosuInferUpscaledInput at h
  split at h
  · cases h
  · simp only [bind, Except.bind, pure, Except.pure] at h
    repeat (split at h <;> first
      | (rename_i e2 he2
         cases h
         obtain ⟨hh, hl⟩ := arrayAt_error_length he2
         cases hh
         exact ⟨by decide, by decide⟩)
      | skip)
    all_goals cases h

/-- With a weight of at least four axes and a kernel shape of at least two entries, the
three assignments never fail on a read of the weight shape or of the kernel shape. -/
theorem resolveShapes_reads {types : List RelayType} {ifm weight : TensorTypeNode}
    {param : EthosuConv2DAttrs} {name : String} {i : Nat}
    (hw : 4 ≤ weight.shape.length)
    (hk : ∀ ks, param.kernel_shape = some ks → 2 ≤ ks.length)
    (h : (resolveShapes types ifm weight param).status =
      RelStatus.failed (RelError.IndexOutOfRange name i)) :
    name ≠ "weight.shape" ∧ name ≠ "kernel_shape" := by
  unfold resolveShapes at h
  split at h
  · rename_i e1 he
    simp only [abort, RelStatus.failed.injEq] at h
    subst h
    obtain ⟨hh, hl⟩ := arrayAt_error_length he
    omega
  split at h
  · simp [abort] at h
  split at h
  · simp [abort] at h
  rename_i ks hks
  have hk2 := hk ks hks
  split at h
  · rename_i e1 he
    simp only [abort, RelStatus.failed.injEq] at h
    subst h
    obtain ⟨hh, hl⟩ := arrayAt_error_length he
    omega
  split at h
  · rename_i e1 he
    simp only [abort, RelStatus.failed.injEq] at h
    subst h
    obtain ⟨hh, hl⟩ := arrayAt_error_length he
    omega
  split at h
  · rename_i e1 he
    simp only [abort, RelStatus.failed.injEq] at h
    subst h
    obtain ⟨hh, hl⟩ := arrayAt_error_length he
    omega
  split at h
  · simp [abort] at h
  split at h
  · simp [abort] at h
  split at h
  · rename_i e1 he
    simp only [abort, RelStatus.failed.injEq] at h
    subst h
    split at he
    · exact EthosuInferUpscaledInput_reads he
    · cases he
  split at h
  · rename_i e1 he
    simp only [abort, RelStatus.failed.injEq] at h
    subst h
    exact EthosuInferKernelOutput_reads hk2 he
  split at h
  · simp [abort] at h
  · simp at h

/-- An out-of-range failure of the relation comes from the three assignments, run on the
concrete ifm and weight and the non-null attributes of the call. -/
theorem EthosuConv2DRel_index_error {t0 t1 t2 t3 t4 : RelayType} {n : Int}
    {attrs : Option EthosuConv2DAttrs} {name : String} {i : Nat}
    (h : (EthosuConv2DRel [t0, t1, t2, t3, t4] n attrs).status =
      RelStatus.failed (RelError.IndexOutOfRange name i)) :
    ∃ ifm weight param, t1 = RelayType.tensor weight ∧ attrs = some param ∧
      (resolveShapes [t0, t1, t2, t3, t4] ifm weight param).status =
        RelStatus.failed (RelError.IndexOutOfRange name i) := by
  unfold EthosuConv2DRel at h
  simp only at h
  repeat (split at h <;> first | (simp [abort, EmitFatal] at h; done) | skip)
  rename_i _ _ ifm weight h0 h1 _ param hi hw _ sb h2 hsb hup
  rw [asTensorTypeNode_eq_some] at h1
  exact ⟨ifm, weight, param, h1, rfl, h⟩

/-- A call with five slots never fails the arity check. -/
theorem EthosuConv2DRel_five_slots (t0 t1 t2 t3 t4 : RelayType) (n : Int)
    (attrs : Option EthosuConv2DAttrs) :
    (EthosuConv2DRel [t0, t1, t2, t3, t4] n attrs).status ≠
      RelStatus.failed RelError.ArityMismatch := by
  intro h
  unfold EthosuConv2DRel at h
  simp only at h
  repeat (split at h <;> first | (simp [abort, EmitFatal] at h; done) | skip)
  rcases resolveShapes_failed h with ⟨a, b, hh⟩ | ⟨a, hh⟩ | ⟨a, hh⟩ | hh | hh <;> cases hh

/-! ## The claims -/

/-- C1: on the round-trip call (ifm `(1,32,32,8)` int8, weight `(16,3,3,8)` int8, the
scale-bias, lut and ofm slots unresolved, `kernel_shape = (3,3)`, `ofm_channels = 16`,
defaults otherwise) the relation does not succeed: it reads the dtype of the scale-bias
slot through the null pointer that the downcast of an unresolved slot gives, and no slot
is resolved. -/
theorem C1_round_trip_reads_null_scale_bias :
    EthosuConv2DRel [ifm32, weight3x3, RelayType.incomplete, RelayType.incomplete,
        RelayType.incomplete] 4 (some attrs3x3) =
      ⟨RelStatus.failed RelError.NullDereference,
        [ifm32, weight3x3, RelayType.incomplete, RelayType.incomplete, RelayType.incomplete],
        []⟩ := by
  decide

/-- C2: whenever the relation returns success, the scale-bias slot holds the type
`(ofm_channels, 10)` uint8, `ofm_channels` being the attribute. -/
theorem C2_scale_bias_shape (types : List RelayType) (n : Int)
    (attrs : Option EthosuConv2DAttrs)
    (hs : (EthosuConv2DRel types n attrs).status = RelStatus.resolved) :
    ∃ param oc, attrs = some param ∧ param.ofm_channels = some oc ∧
      (EthosuConv2DRel types n attrs).types[2]? =
        some (RelayType.tensor ⟨[oc, 10], DataType.UInt 8⟩) := by
  obtain ⟨ifm, weight, sb, t3, t4, param, ks, k0, k1, w3, oc, ifm_shape, ofm_shape, hty, hat,
    -, -, -, -, -, -, hoc, -, hsb, -, -, -, hr⟩ := EthosuConv2DRel_resolved hs
  refine ⟨param, oc, hat, hoc, ?_⟩
  rw [hr, hsb]
  rfl

theorem C2_scale_bias_shape_witness :
    (EthosuConv2DRel [ifm32, weight3x3, scaleBias16, RelayType.incomplete,
        RelayType.incomplete] 4 (some attrs3x3)).status = RelStatus.resolved ∧
    ∃ param oc, some attrs3x3 = some param ∧ param.ofm_channels = some oc ∧
      (EthosuConv2DRel [ifm32, weight3x3, scaleBias16, RelayType.incomplete,
        RelayType.incomplete] 4 (some attrs3x3)).types[2]? =
        some (RelayType.tensor ⟨[oc, 10], DataType.UInt 8⟩) :=
  ⟨by decide, C2_scale_bias_shape _ 4 _ (by decide)⟩

/-- C3: whenever the relation returns success, the weight slot holds the shape
`(ofm_channels, kernel_shape[0], kernel_shape[1], weight.shape[3])`, the last entry being
axis 3 of the weight shape given on entry, with the weight dtype given on entry. -/
theorem C3_weight_shape (types : List RelayType) (n : Int)
    (attrs : Option EthosuConv2DAttrs)
    (hs : (EthosuConv2DRel types n attrs).status = RelStatus.resolved) :
    ∃ param weight oc ks k0 k1 w3, attrs = some param ∧
      types[1]? = some (RelayType.tensor weight) ∧
      param.ofm_channels = some oc ∧ param.kernel_shape = some ks ∧
      ks[0]? = some k0 ∧ ks[1]? = some k1 ∧ weight.shape[3]? = some w3 ∧
      (EthosuConv2DRel types n attrs).types[1]? =
        some (RelayType.tensor ⟨[oc, k0, k1, w3], weight.dtype⟩) := by
  obtain ⟨ifm, weight, sb, t3, t4, param, ks, k0, k1, w3, oc, ifm_shape, ofm_shape, hty, hat,
    -, -, -, hks, hk0, hk1, hoc, hws, -, -, -, -, hr⟩ := EthosuConv2DRel_resolved hs
  refine ⟨param, weight, oc, ks, k0, k1, w3, hat, ?_, hoc, hks, hk0, hk1, ?_, ?_⟩
  · rw [hty]; rfl
  · rw [hws]; rfl
  · rw [hr]
    have hw : weight = ⟨[oc, k0, k1, w3], weight.dtype⟩ := by
      cases weight; simp at hws; simp [hws]
    rw [← hw]; rfl

theorem C3_weight_shape_witness :
    (EthosuConv2DRel [ifm32, weight3x3, scaleBias16, RelayType.incomplete,
        RelayType.incomplete] 4 (some attrs3x3)).status = RelStatus.resolved ∧
    ∃ param weight oc ks k0 k1 w3, some attrs3x3 = some param ∧
      [ifm32, weight3x3, scaleBias16, RelayType.incomplete, RelayType.incomplete][1]? =
        some (RelayType.tensor weight) ∧
      param.ofm_channels = some oc ∧ param.kernel_shape = some ks ∧
      ks[0]? = some k0 ∧ ks[1]? = some k1 ∧ weight.shape[3]? = some w3 ∧
      (EthosuConv2DRel [ifm32, weight3x3, scaleBias16, RelayType.incomplete,
        RelayType.incomplete] 4 (some attrs3x3)).types[1]? =
        some (RelayType.tensor ⟨[oc, k0, k1, w3], weight.dtype⟩) :=
  ⟨by decide, C3_weight_shape _ 4 _ (by decide)⟩

/-- C4: whenever the relation returns success, the ofm slot holds a tensor type whose
dtype is the dtype of the ifm slot, which is int8 or uint8; the weight dtype and the
scale and zero-point attributes play no part. -/
theorem C4_ofm_dtype (types : List RelayType) (n : Int) (attrs : Option EthosuConv2DAttrs)
    (hs : (EthosuConv2DRel types n attrs).status = RelStatus.resolved) :
    ∃ ifm ofm_shape, types[0]? = some (RelayType.tensor ifm) ∧
      (ifm.dtype = DataType.UInt 8 ∨ ifm.dtype = DataType.Int 8) ∧
      (EthosuConv2DRel types n attrs).types[4]? =
        some (RelayType.tensor ⟨ofm_shape, ifm.dtype⟩) := by
  obtain ⟨ifm, weight, sb, t3, t4, param, ks, k0, k1, w3, oc, ifm_shape, ofm_shape, hty, -,
    hid, -, -, -, -, -, -, -, -, -, -, -, hr⟩ := EthosuConv2DRel_resolved hs
  refine ⟨ifm, ofm_shape, ?_, hid, ?_⟩
  · rw [hty]; rfl
  · rw [hr]; rfl

theorem C4_ofm_dtype_witness :
    (EthosuConv2DRel [RelayType.tensor ⟨[1, 32, 32, 8], DataType.UInt 8⟩, weight3x3,
        scaleBias16, RelayType.incomplete, RelayType.incomplete] 4
        (some attrs3x3)).status = RelStatus.resolved ∧
    ∃ ifm ofm_shape,
      [RelayType.tensor ⟨[1, 32, 32, 8], DataType.UInt 8⟩, weight3x3, scaleBias16,
        RelayType.incomplete, RelayType.incomplete][0]? = some (RelayType.tensor ifm) ∧
      (ifm.dtype = DataType.UInt 8 ∨ ifm.dtype = DataType.Int 8) ∧
      (EthosuConv2DRel [RelayType.tensor ⟨[1, 32, 32, 8], DataType.UInt 8⟩, weight3x3,
        scaleBias16, RelayType.incomplete, RelayType.incomplete] 4
        (some attrs3x3)).types[4]? = some (RelayType.tensor ⟨ofm_shape, ifm.dtype⟩) :=
  ⟨by decide, C4_ofm_dtype _ 4 _ (by decide)⟩

/-- C5: for every call that succeeds with `ifm_layout = ofm_layout = NHWC`, strides
`(1,1)`, dilation `(1,1)`, padding `(0,0,0,0)` and `upscale = NONE`, the ofm slot holds
the shape `(1, ifm_height - kernel_height + 1, ifm_width - kernel_width + 1,
ofm_channels)`, height and width being axes 1 and 2 of the ifm shape. -/
theorem C5_ofm_shape_unit_stride (types : List RelayType) (n : Int)
    (param : EthosuConv2DAttrs) (ifm : TensorTypeNode) (ks : List Int)
    (oc ifm_height ifm_width kernel_height kernel_width : Int)
    (hs : (EthosuConv2DRel types n (some param)).status = RelStatus.resolved)
    (h0 : types[0]? = some (RelayType.tensor ifm))
    (hil : param.ifm_layout = "NHWC") (hol : param.ofm_layout = "NHWC")
    (hst : param.strides = [1, 1]) (hdl : param.dilation = [1, 1])
    (hpd : param.padding = [0, 0, 0, 0]) (hup : param.upscale = "NONE")
    (hks : param.kernel_shape = some ks)
    (hkh : ks[0]? = some kernel_height) (hkw : ks[1]? = some kernel_width)
    (hoc : param.ofm_channels = some oc)
    (hh : ifm.shape[1]? = some ifm_height) (hw : ifm.shape[2]? = some ifm_width) :
    (EthosuConv2DRel types n (some param)).types[4]? =
      some (RelayType.tensor
        ⟨[1, ifm_height - kernel_height + 1, ifm_width - kernel_width + 1, oc],
          ifm.dtype⟩) := by
  obtain ⟨ifm2, weight, sb, t3, t4, param2, ks2, k0, k1, w3, oc2, ifm_shape, ofm_shape, hty,
    hat, -, -, -, hks2, -, -, hoc2, -, -, heff, hko, -, hr⟩ := EthosuConv2DRel_resolved hs
  cases hat
  rw [hty] at h0
  simp only [List.getElem?_cons_zero, Option.some.injEq, RelayType.tensor.injEq] at h0
  subst h0
  rw [hks] at hks2
  cases hks2
  rw [hoc] at hoc2
  cases hoc2
  rw [hup] at heff
  simp only [ne_eq, not_true_eq_false, if_false, Except.ok.injEq] at heff
  subst heff
  obtain ⟨hi, wi, in_h, in_w, kh, kw, dh, dw, sh, sw, pt, pl, pb, pr, hl, -, a1, a2, a3, a4,
    a5, a6, a7, a8, a9, a10, a11, a12, hshape, -⟩ := EthosuInferKernelOutput_ok hko
  rw [hil] at hl
  rcases layoutHeightWidth_eq_some hl with ⟨-, rfl, rfl⟩ | ⟨c, -, -⟩
  · rw [hh] at a1
    rw [hw] at a2
    rw [hkh] at a3
    rw [hkw] at a4
    rw [hdl] at a5 a6
    rw [hst] at a7 a8
    rw [hpd] at a9 a10 a11 a12
    simp at a1 a2 a3 a4 a5 a6 a7 a8 a9 a10 a11 a12
    subst_vars
    rw [hr, if_pos hol, outSize_unit, outSize_unit]
    rfl
  · exact absurd c (by decide)

theorem C5_ofm_shape_unit_stride_witness :
    (EthosuConv2DRel [ifm32, weight3x3, scaleBias16, RelayType.incomplete,
        RelayType.incomplete] 4 (some attrs3x3)).types[4]? =
      some (RelayType.tensor ⟨[1, 32 - 3 + 1, 32 - 3 + 1, 16], DataType.Int 8⟩) :=
  C5_ofm_shape_unit_stride _ 4 attrs3x3 ⟨[1, 32, 32, 8], DataType.Int 8⟩ [3, 3] 16 32 32 3 3
    (by decide) rfl rfl rfl rfl rfl rfl rfl rfl rfl rfl rfl rfl rfl

/-- C6: for every call that succeeds, the ofm slot holds the kernel output shape computed
from an effective ifm shape and the ifm dtype.  With `upscale = NONE` the effective shape
is the ifm shape; with `upscale` NEAREST or ZEROS it is the ifm shape with the height and
the width axis of the layout doubled and every other axis unchanged.  The call with ifm
`(1,32,32,8)`, kernel `(3,3)`, 16 channels and `upscale = NEAREST` gives ofm
`(1,62,62,16)`. -/
theorem C6_upscaled_input :
    (∀ (types : List RelayType) (n : Int) (attrs : Option EthosuConv2DAttrs),
      (EthosuConv2DRel types n attrs).status = RelStatus.resolved →
      ∃ ifm param ks oc eff ofm_shape,
        types[0]? = some (RelayType.tensor ifm) ∧ attrs = some param ∧
        param.kernel_shape = some ks ∧ param.ofm_channels = some oc ∧
        EthosuInferKernelOutput eff param.ifm_layout param.ofm_layout ks oc param.dilation
          param.strides param.padding = Except.ok ofm_shape ∧
        (EthosuConv2DRel types n attrs).types[4]? =
          some (RelayType.tensor ⟨ofm_shape, ifm.dtype⟩) ∧
        (param.upscale = "NONE" → eff = ifm.shape) ∧
        ((param.upscale = "NEAREST" ∨ param.upscale = "ZEROS") →
          ∃ hi wi ht wd,
            ((param.ifm_layout = "NHWC" ∧ hi = 1 ∧ wi = 2) ∨
              (param.ifm_layout = "NHCWB16" ∧ hi = 1 ∧ wi = 3)) ∧
            ifm.shape[hi]? = some ht ∧ ifm.shape[wi]? = some wd ∧
            eff.length = ifm.shape.length ∧
            eff[hi]? = some (2 * ht) ∧ eff[wi]? = some (2 * wd) ∧
            ∀ i, i ≠ hi → i ≠ wi → eff[i]? = ifm.shape[i]?)) ∧
    (EthosuConv2DRel [ifm32, weight3x3, scaleBias16, RelayType.incomplete,
        RelayType.incomplete] 4 (some { attrs3x3 with upscale := "NEAREST" })).types[4]? =
      some (RelayType.tensor ⟨[1, 62, 62, 16], DataType.Int 8⟩) := by
  refine ⟨?_, by decide⟩
  intro types n attrs hs
  obtain ⟨ifm, weight, sb, t3, t4, param, ks, k0, k1, w3, oc, eff, ofm_shape, hty,
    hat, -, -, -, hks, -, -, hoc, -, -, heff, hko, -, hr⟩ := EthosuConv2DRel_resolved hs
  refine ⟨ifm, param, ks, oc, eff, ofm_shape, by rw [hty]; rfl, hat, hks, hoc, hko,
    by rw [hr]; rfl, ?_, ?_⟩
  · intro hu
    rw [hu] at heff
    simp only [ne_eq, not_true_eq_false, if_false, Except.ok.injEq] at heff
    exact heff.symm
  · intro hu
    have hne : param.upscale ≠ "NONE" := by
      rcases hu with hu | hu <;> rw [hu] <;> decide
    rw [if_pos hne] at heff
    obtain ⟨hi, wi, ht, wd, hl, h1, h2, rfl⟩ := EthosuInferUpscaledInput_ok heff
    have hlay := layoutHeightWidth_eq_some hl
    have hne2 : hi ≠ wi := by
      rcases hlay with ⟨-, rfl, rfl⟩ | ⟨-, rfl, rfl⟩ <;> decide
    have hlt1 : hi < ifm.shape.length := by
      by_contra hc
      rw [List.getElem?_eq_none (Nat.le_of_not_lt hc)] at h1
      cases h1
    have hlt2 : wi < ifm.shape.length := by
      by_contra hc
      rw [List.getElem?_eq_none (Nat.le_of_not_lt hc)] at h2
      cases h2
    refine ⟨hi, wi, ht, wd, hlay, h1, h2, by simp, ?_, ?_, ?_⟩
    · simp [List.getElem?_set, hne2, Ne.symm hne2, hlt1, mul_comm]
    · simp [List.getElem?_set, hlt2, mul_comm]
    · intro i hi1 hi2
      simp [List.getElem?_set, Ne.symm hi1, Ne.symm hi2]

theorem C6_upscaled_input_witness :
    ∃ ifm param ks oc eff ofm_shape,
      [ifm32, weight3x3, scaleBias16, RelayType.incomplete, RelayType.incomplete][0]? =
        some (RelayType.tensor ifm) ∧
      some { attrs3x3 with upscale := "ZEROS" } = some param ∧
      param.kernel_shape = some ks ∧ param.ofm_channels = some oc ∧
      EthosuInferKernelOutput eff param.ifm_layout param.ofm_layout ks oc param.dilation
        param.strides param.padding = Except.ok ofm_shape ∧
      (EthosuConv2DRel [ifm32, weight3x3, scaleBias16, RelayType.incomplete,
        RelayType.incomplete] 4 (some { attrs3x3 with upscale := "ZEROS" })).types[4]? =
        some (RelayType.tensor ⟨ofm_shape, ifm.dtype⟩) ∧
      (param.upscale = "NONE" → eff = ifm.shape) ∧
      ((param.upscale = "NEAREST" ∨ param.upscale = "ZEROS") →
        ∃ hi wi ht wd,
          ((param.ifm_layout = "NHWC" ∧ hi = 1 ∧ wi = 2) ∨
            (param.ifm_layout = "NHCWB16" ∧ hi = 1 ∧ wi = 3)) ∧
          ifm.shape[hi]? = some ht ∧ ifm.shape[wi]? = some wd ∧
          eff.length = ifm.shape.length ∧
          eff[hi]? = some (2 * ht) ∧ eff[wi]? = some (2 * wd) ∧
          ∀ i, i ≠ hi → i ≠ wi → eff[i]? = ifm.shape[i]?) :=
  C6_upscaled_input.1 _ 4 _ (by decide)

/-- C7: for a call with five slots whose ifm slot or weight slot is not a concrete tensor
type, the relation reports deferred, emits no diagnostic and leaves every slot as it was,
whatever the attributes (null included) and the other slots are. -/
theorem C7_deferred (t0 t1 t2 t3 t4 : RelayType) (n : Int) (attrs : Option EthosuConv2DAttrs)
    (h : t0.asTensorTypeNode = none ∨ t1.asTensorTypeNode = none) :
    EthosuConv2DRel [t0, t1, t2, t3, t4] n attrs =
      ⟨RelStatus.deferred, [t0, t1, t2, t3, t4], []⟩ := by
  unfold EthosuConv2DRel
  rcases h with h | h
  · simp [h]
  · cases h0 : t0.asTensorTypeNode <;> simp [h]

theorem C7_deferred_witness :
    (RelayType.incomplete.asTensorTypeNode = none ∨ weight3x3.asTensorTypeNode = none) ∧
    EthosuConv2DRel [RelayType.incomplete, weight3x3, scaleBias16, RelayType.incomplete,
        RelayType.incomplete] 4 (some attrs3x3) =
      ⟨RelStatus.deferred, [RelayType.incomplete, weight3x3, scaleBias16, RelayType.incomplete,
        RelayType.incomplete], []⟩ :=
  ⟨Or.inl rfl, C7_deferred _ _ _ _ _ 4 _ (Or.inl rfl)⟩

/-- C8: for a call with concrete ifm, weight and scale-bias, if the ifm dtype is neither
int8 nor uint8, or the weight dtype is neither int8 nor uint8, or the scale-bias dtype is
not uint8, the relation fails with `UnsupportedDType`, emits exactly one fatal diagnostic,
which names a tensor and the dtype found, and leaves every slot as it was. -/
theorem C8_unsupported_dtype (ifm weight sb : TensorTypeNode) (t3 t4 : RelayType) (n : Int)
    (param : EthosuConv2DAttrs)
    (h : (ifm.dtype ≠ DataType.Int 8 ∧ ifm.dtype ≠ DataType.UInt 8) ∨
      (weight.dtype ≠ DataType.Int 8 ∧ weight.dtype ≠ DataType.UInt 8) ∨
      sb.dtype ≠ DataType.UInt 8) :
    ∃ tensor found,
      EthosuConv2DRel [RelayType.tensor ifm, RelayType.tensor weight, RelayType.tensor sb,
          t3, t4] n (some param) =
        ⟨RelStatus.failed RelError.UnsupportedDType,
          [RelayType.tensor ifm, RelayType.tensor weight, RelayType.tensor sb, t3, t4],
          [Diagnostic.dtype tensor found]⟩ ∧
      ((tensor = "input" ∧ found = ifm.dtype) ∨ (tensor = "weight" ∧ found = weight.dtype) ∨
        (tensor = "scale bias" ∧ found = sb.dtype)) := by
  unfold EthosuConv2DRel
  simp only [RelayType.asTensorTypeNode]
  by_cases hi : ifm.dtype ≠ DataType.UInt 8 ∧ ifm.dtype ≠ DataType.Int 8
  · exact ⟨"input", ifm.dtype, by rw [if_pos hi]; rfl, Or.inl ⟨rfl, rfl⟩⟩
  · by_cases hw : weight.dtype ≠ DataType.UInt 8 ∧ weight.dtype ≠ DataType.Int 8
    · exact ⟨"weight", weight.dtype, by rw [if_neg hi, if_pos hw]; rfl, Or.inr (Or.inl ⟨rfl, rfl⟩)⟩
    · have hsb : sb.dtype ≠ DataType.UInt 8 := by
        rcases h with h | h | h
        · exact absurd ⟨h.2, h.1⟩ hi
        · exact absurd ⟨h.2, h.1⟩ hw
        · exact h
      exact ⟨"scale bias", sb.dtype, by rw [if_neg hi, if_neg hw, if_pos hsb]; rfl,
        Or.inr (Or.inr ⟨rfl, rfl⟩)⟩

theorem C8_unsupported_dtype_witness :
    ∃ tensor found,
      EthosuConv2DRel [RelayType.tensor ⟨[1, 32, 32, 8], DataType.Float 32⟩,
          RelayType.tensor ⟨[16, 3, 3, 8], DataType.Int 8⟩,
          RelayType.tensor ⟨[16, 10], DataType.UInt 8⟩, RelayType.incomplete,
          RelayType.incomplete] 4 (some attrs3x3) =
        ⟨RelStatus.failed RelError.UnsupportedDType,
          [RelayType.tensor ⟨[1, 32, 32, 8], DataType.Float 32⟩,
            RelayType.tensor ⟨[16, 3, 3, 8], DataType.Int 8⟩,
            RelayType.tensor ⟨[16, 10], DataType.UInt 8⟩, RelayType.incomplete,
            RelayType.incomplete],
          [Diagnostic.dtype tensor found]⟩ ∧
      ((tensor = "input" ∧ found = DataType.Float 32) ∨
        (tensor = "weight" ∧ found = DataType.Int 8) ∨
        (tensor = "scale bias" ∧ found = DataType.UInt 8)) :=
  C8_unsupported_dtype ⟨[1, 32, 32, 8], DataType.Float 32⟩ ⟨[16, 3, 3, 8], DataType.Int 8⟩
    ⟨[16, 10], DataType.UInt 8⟩ RelayType.incomplete RelayType.incomplete 4 attrs3x3
    (Or.inl ⟨by decide, by decide⟩)

/-- C9: for a call with concrete ifm, weight and scale-bias of legal dtypes, an upscale
attribute that is none of NONE, ZEROS, NEAREST makes the relation fail with
`InvalidEnumValue` and one fatal diagnostic that carries the value found, every slot left
as it was, whatever the shapes, layouts and geometry attributes are; an upscale
attribute that is one of the three never gives `InvalidEnumValue` nor any diagnostic. -/
theorem C9_upscale_value (ifm weight sb : TensorTypeNode) (t3 t4 : RelayType) (n : Int)
    (param : EthosuConv2DAttrs)
    (hi : ifm.dtype = DataType.Int 8 ∨ ifm.dtype = DataType.UInt 8)
    (hw : weight.dtype = DataType.Int 8 ∨ weight.dtype = DataType.UInt 8)
    (hsb : sb.dtype = DataType.UInt 8) :
    ((param.upscale ≠ "NONE" ∧ param.upscale ≠ "ZEROS" ∧ param.upscale ≠ "NEAREST") →
      EthosuConv2DRel [RelayType.tensor ifm, RelayType.tensor weight, RelayType.tensor sb,
          t3, t4] n (some param) =
        ⟨RelStatus.failed RelError.InvalidEnumValue,
          [RelayType.tensor ifm, RelayType.tensor weight, RelayType.tensor sb, t3, t4],
          [Diagnostic.upscaleMethod param.upscale]⟩) ∧
    ((param.upscale = "NONE" ∨ param.upscale = "ZEROS" ∨ param.upscale = "NEAREST") →
      (EthosuConv2DRel [RelayType.tensor ifm, RelayType.tensor weight, RelayType.tensor sb,
          t3, t4] n (some param)).status ≠ RelStatus.failed RelError.InvalidEnumValue ∧
      (EthosuConv2DRel [RelayType.tensor ifm, RelayType.tensor weight, RelayType.tensor sb,
          t3, t4] n (some param)).diags = []) := by
  have h1 : ¬ (ifm.dtype ≠ DataType.UInt 8 ∧ ifm.dtype ≠ DataType.Int 8) := by tauto
  have h2 : ¬ (weight.dtype ≠ DataType.UInt 8 ∧ weight.dtype ≠ DataType.Int 8) := by tauto
  have h3 : ¬ (sb.dtype ≠ DataType.UInt 8) := by tauto
  unfold EthosuConv2DRel
  simp only [RelayType.asTensorTypeNode]
  rw [if_neg h1, if_neg h2, if_neg h3]
  constructor
  · intro hu
    have h4 : ¬ (param.upscale ∈ upscale_methods) := by
      simp only [upscale_methods, List.mem_cons, List.mem_singleton, List.not_mem_nil,
        or_false]
      tauto
    rw [if_pos h4]
    rfl
  · intro hu
    have h4 : ¬ ¬ (param.upscale ∈ upscale_methods) := by
      simp only [upscale_methods, List.mem_cons, List.mem_singleton, List.not_mem_nil,
        or_false]
      tauto
    rw [if_neg h4]
    refine ⟨?_, resolveShapes_diags _ _ _ _⟩
    intro hf
    rcases resolveShapes_failed hf with ⟨a, b, hh⟩ | ⟨a, hh⟩ | ⟨a, hh⟩ | hh | hh <;> cases hh

theorem C9_upscale_value_witness :
    EthosuConv2DRel [ifm32, weight3x3, scaleBias16, RelayType.incomplete,
        RelayType.incomplete] 4 (some { attrs3x3 with upscale := "HALF" }) =
      ⟨RelStatus.failed RelError.InvalidEnumValue,
        [ifm32, weight3x3, scaleBias16, RelayType.incomplete, RelayType.incomplete],
        [Diagnostic.upscaleMethod "HALF"]⟩ :=
  (C9_upscale_value ⟨[1, 32, 32, 8], DataType.Int 8⟩ ⟨[16, 3, 3, 8], DataType.Int 8⟩
    ⟨[16, 10], DataType.UInt 8⟩ RelayType.incomplete RelayType.incomplete 4
    { attrs3x3 with upscale := "HALF" } (Or.inl rfl) (Or.inl rfl) rfl).1
    ⟨by decide, by decide, by decide⟩

/-- C10: the relation fails with `ArityMismatch` exactly when the number of type slots is
not five; with another slot count the result is therefore `ArityMismatch` and never
deferred, whatever the slots hold. -/
theorem C10_arity (types : List RelayType) (n : Int) (attrs : Option EthosuConv2DAttrs) :
    (EthosuConv2DRel types n attrs).status = RelStatus.failed RelError.ArityMismatch ↔
      types.length ≠ 5 := by
  constructor
  · intro h hlen
    match types, hlen with
    | [t0, t1, t2, t3, t4], _ =>
      unfold EthosuConv2DRel at h
      simp only at h
      repeat (split at h <;> first | (simp [abort, EmitFatal] at h; done) | skip)
      rcases resolveShapes_failed h with ⟨a, b, hh⟩ | ⟨a, hh⟩ | ⟨a, hh⟩ | hh | hh <;> cases hh
  · intro hlen
    unfold EthosuConv2DRel
    split
    · simp at hlen
    · rfl

/-- C11: the relation is idempotent on its own output.  For every call that succeeds,
calling it again with the same attributes on the slots as the first call left them
succeeds again, emits nothing and leaves every slot with exactly the type the first call
gave it. -/
theorem C11_idempotent (types : List RelayType) (n : Int) (attrs : Option EthosuConv2DAttrs)
    (hs : (EthosuConv2DRel types n attrs).status = RelStatus.resolved) :
    EthosuConv2DRel (EthosuConv2DRel types n attrs).types n attrs =
      ⟨RelStatus.resolved, (EthosuConv2DRel types n attrs).types, []⟩ := by
  obtain ⟨ifm, weight, sb, t3, t4, param, ks, k0, k1, w3, oc, eff, ofm_shape, -, hat,
    hid, hwd, hup, hks, hk0, hk1, hoc, hws, hsb, heff, hko, -, hr⟩ := EthosuConv2DRel_resolved hs
  rw [hr, hat, hsb]
  exact EthosuConv2DRel_intro hid hwd hup hks hk0 hk1 hoc hws heff hko (Or.inr rfl)

theorem C11_idempotent_witness :
    (EthosuConv2DRel [ifm32, weight3x3, scaleBias16, RelayType.incomplete,
        RelayType.incomplete] 4 (some attrs3x3)).status = RelStatus.resolved ∧
    EthosuConv2DRel (EthosuConv2DRel [ifm32, weight3x3, scaleBias16, RelayType.incomplete,
        RelayType.incomplete] 4 (some attrs3x3)).types 4 (some attrs3x3) =
      ⟨RelStatus.resolved, (EthosuConv2DRel [ifm32, weight3x3, scaleBias16,
        RelayType.incomplete, RelayType.incomplete] 4 (some attrs3x3)).types, []⟩ :=
  ⟨by decide, C11_idempotent _ 4 _ (by decide)⟩

/-- C12: a call that reaches the kernel-output computation (legal dtypes and upscale,
scale-bias and weight agreeing with the attributes, known layouts, every read in range)
and whose computed output height or width is not positive fails with `InvalidGeometry`
and leaves every slot, the ofm slot included, as it was; and every ofm shape the relation
assigns on success has all its dimensions strictly positive. -/
theorem C12_invalid_geometry :
    (∀ (ifm weight : TensorTypeNode) (t3 t4 : RelayType) (n : Int)
      (param : EthosuConv2DAttrs) (ks eff : List Int) (hi wi : Nat)
      (oc kh kw w3 in_h in_w dh dw sh sw pt pl pb pr : Int),
      (ifm.dtype = DataType.UInt 8 ∨ ifm.dtype = DataType.Int 8) →
      (weight.dtype = DataType.UInt 8 ∨ weight.dtype = DataType.Int 8) →
      (param.upscale = "NONE" ∨ param.upscale = "ZEROS" ∨ param.upscale = "NEAREST") →
      param.kernel_shape = some ks → ks[0]? = some kh → ks[1]? = some kw →
      param.ofm_channels = some oc → weight.shape = [oc, kh, kw, w3] →
      (if param.upscale ≠ "NONE" then EthosuInferUpscaledInput ifm.shape param.ifm_layout
        else Except.ok ifm.shape) = Except.ok eff →
      layoutHeightWidth param.ifm_layout = some (hi, wi) →
      (param.ofm_layout = "NHWC" ∨ param.ofm_layout = "NHCWB16") →
      eff[hi]? = some in_h → eff[wi]? = some in_w →
      param.dilation[0]? = some dh → param.dilation[1]? = some dw →
      param.strides[0]? = some sh → param.strides[1]? = some sw →
      param.padding[0]? = some pt → param.padding[1]? = some pl →
      param.padding[2]? = some pb → param.padding[3]? = some pr →
      (outSize in_h pt pb kh dh sh ≤ 0 ∨ outSize in_w pl pr kw dw sw ≤ 0) →
      EthosuConv2DRel [RelayType.tensor ifm, RelayType.tensor weight,
          RelayType.tensor ⟨[oc, 10], DataType.UInt 8⟩, t3, t4] n (some param) =
        ⟨RelStatus.failed RelError.InvalidGeometry,
          [RelayType.tensor ifm, RelayType.tensor weight,
            RelayType.tensor ⟨[oc, 10], DataType.UInt 8⟩, t3, t4], []⟩) ∧
    (∀ (types : List RelayType) (n : Int) (attrs : Option EthosuConv2DAttrs),
      (EthosuConv2DRel types n attrs).status = RelStatus.resolved →
      ∃ ofm, (EthosuConv2DRel types n attrs).types[4]? = some (RelayType.tensor ofm) ∧
        ∀ d ∈ ofm.shape, 0 < d) := by
  constructor
  · intro ifm weight t3 t4 n param ks eff hi wi oc kh kw w3 in_h in_w dh dw sh sw pt pl pb pr
      hid hwd hup hks hk0 hk1 hoc hws heff hl hol h1 h2 h5 h6 h7 h8 h9 h10 h11 h12 hle
    have hup2 : param.upscale ∈ upscale_methods := by
      simp only [upscale_methods, List.mem_cons, List.mem_singleton, List.not_mem_nil,
        or_false]
      exact hup
    rw [EthosuConv2DRel_geometry hid hwd hup2 hks hk0 hk1 hoc hws heff,
      EthosuInferKernelOutput_eq hl hol h1 h2 hk0 hk1 h5 h6 h7 h8 h9 h10 h11 h12]
    have hall : ¬ ((if param.ofm_layout = "NHWC"
          then [1, outSize in_h pt pb kh dh sh, outSize in_w pl pr kw dw sw, oc]
          else [1, outSize in_h pt pb kh dh sh, Int.fdiv oc 16,
            outSize in_w pl pr kw dw sw, 16]).all (fun d => decide (0 < d)) = true) := by
      intro hall
      rw [List.all_eq_true] at hall
      rcases hle with hle | hle
      · have := hall (outSize in_h pt pb kh dh sh) (by split <;> simp)
        simp at this
        omega
      · have := hall (outSize in_w pl pr kw dw sw) (by split <;> simp)
        simp at this
        omega
    rw [if_neg hall]
    rfl
  · intro types n attrs hs
    obtain ⟨ifm, weight, sb, t3, t4, param, ks, k0, k1, w3, oc, eff, ofm_shape, -, -,
      -, -, -, -, -, -, -, -, -, -, hko, -, hr⟩ := EthosuConv2DRel_resolved hs
    obtain ⟨hi, wi, in_h, in_w, kh, kw, dh, dw, sh, sw, pt, pl, pb, pr, -, -, -, -, -, -,
      -, -, -, -, -, -, -, -, -, hpos⟩ := EthosuInferKernelOutput_ok hko
    exact ⟨⟨ofm_shape, ifm.dtype⟩, by rw [hr]; rfl, hpos⟩

theorem C12_invalid_geometry_witness :
    EthosuConv2DRel [RelayType.tensor ⟨[1, 2, 2, 8], DataType.Int 8⟩, weight3x3,
        scaleBias16, RelayType.incomplete, RelayType.incomplete] 4 (some attrs3x3) =
      ⟨RelStatus.failed RelError.InvalidGeometry,
        [RelayType.tensor ⟨[1, 2, 2, 8], DataType.Int 8⟩, weight3x3, scaleBias16,
          RelayType.incomplete, RelayType.incomplete], []⟩ :=
  C12_invalid_geometry.1 ⟨[1, 2, 2, 8], DataType.Int 8⟩ ⟨[16, 3, 3, 8], DataType.Int 8⟩
    RelayType.incomplete RelayType.incomplete 4 attrs3x3 [3, 3] [1, 2, 2, 8] 1 2
    16 3 3 8 2 2 1 1 1 1 0 0 0 0
    (Or.inr rfl) (Or.inr rfl) (Or.inl rfl) rfl rfl rfl rfl rfl rfl (by decide)
    (Or.inl rfl) rfl rfl rfl rfl rfl rfl rfl rfl rfl rfl (by decide)

/-- C13, as stated, fails: a call whose activation is the unknown string `RELU6` succeeds,
and so does a call whose rounding mode is the unknown string `BANKERS`. -/
theorem C13_unknown_mode_accepted :
    ((EthosuConv2DRel [ifm32, weight3x3, scaleBias16, RelayType.incomplete,
        RelayType.incomplete] 4 (some { attrs3x3 with activation := "RELU6" })).status =
        RelStatus.resolved ∧
      "RELU6" ∉ ["NONE", "CLIP", "TANH", "SIGMOID", "LUT"]) ∧
    ((EthosuConv2DRel [ifm32, weight3x3, scaleBias16, RelayType.incomplete,
        RelayType.incomplete] 4 (some { attrs3x3 with rounding_mode := "BANKERS" })).status =
        RelStatus.resolved ∧
      "BANKERS" ∉ ["TFL", "TRUNCATE", "NATURAL"]) := by
  decide

/-- C13, amended: whenever the relation returns success, `upscale` is one of NONE,
NEAREST, ZEROS; the relation does not look at `activation` or `rounding_mode`: replacing
them by any strings leaves its result unchanged, so no value of theirs makes it fail. -/
theorem C13_only_upscale_is_validated (types : List RelayType) (n : Int)
    (param : EthosuConv2DAttrs) (activation rounding_mode : String) :
    EthosuConv2DRel types n
        (some { param with activation := activation, rounding_mode := rounding_mode }) =
      EthosuConv2DRel types n (some param) ∧
    ((EthosuConv2DRel types n (some param)).status = RelStatus.resolved →
      param.upscale = "NONE" ∨ param.upscale = "NEAREST" ∨ param.upscale = "ZEROS") := by
  refine ⟨rfl, ?_⟩
  intro hs
  obtain ⟨ifm, weight, sb, t3, t4, param2, ks, k0, k1, w3, oc, eff, ofm_shape, -, hat,
    -, -, hup, -⟩ := EthosuConv2DRel_resolved hs
  cases hat
  simp only [upscale_methods, List.mem_cons, List.mem_singleton, List.not_mem_nil,
    or_false] at hup
  tauto

theorem C13_only_upscale_is_validated_witness :
    attrs3x3.upscale = "NONE" ∨ attrs3x3.upscale = "NEAREST" ∨ attrs3x3.upscale = "ZEROS" :=
  (C13_only_upscale_is_validated [ifm32, weight3x3, scaleBias16, RelayType.incomplete,
    RelayType.incomplete] 4 attrs3x3 "RELU6" "BANKERS").2 (by decide)

/-- C14, as stated, fails: `MakeEthosuConv2D` called with a null `kernel_shape` and a null
`ofm_channels` returns a call node whose attributes hold these nulls, and the record of
declared defaults holds them too. -/
theorem C14_null_required_fields_accepted :
    ((MakeEthosuConv2D "ifm" "weight" "scale_bias" "lut" 1.0 0 0 1.0 0 none none [1, 1]
        [0, 0, 0, 0] [1, 1] "NONE" 0 0 "TFL" "NONE" "NHWC" "NHWC").attrs.kernel_shape = none ∧
      (MakeEthosuConv2D "ifm" "weight" "scale_bias" "lut" 1.0 0 0 1.0 0 none none [1, 1]
        [0, 0, 0, 0] [1, 1] "NONE" 0 0 "TFL" "NONE" "NHWC" "NHWC").attrs.ofm_channels = none) ∧
    ((EthosuConv2DAttrs.withDefaults 1.0 0 0 1.0 0).kernel_shape = none ∧
      (EthosuConv2DAttrs.withDefaults 1.0 0 0 1.0 0).ofm_channels = none) :=
  ⟨⟨rfl, rfl⟩, ⟨rfl, rfl⟩⟩

/-- C14, amended: constructing the attributes never fails.  `MakeEthosuConv2D` returns a
call node for every argument list and stores `kernel_shape` and `ofm_channels` exactly as
given, null included; both fields have a declared default, the null value. -/
theorem C14_construction_stores_arguments {Expr : Type} (ifm weight scale_bias lut : Expr)
    (ifm_scale : Float) (ifm_zero_point weight_zero_point : Int) (ofm_scale : Float)
    (ofm_zero_point : Int) (kernel_shape : Option (List Int)) (ofm_channels : Option Int)
    (strides padding dilation : List Int) (activation : String) (clip_min clip_max : Int)
    (rounding_mode upscale ifm_layout ofm_layout : String) :
    (MakeEthosuConv2D ifm weight scale_bias lut ifm_scale ifm_zero_point weight_zero_point
        ofm_scale ofm_zero_point kernel_shape ofm_channels strides padding dilation activation
        clip_min clip_max rounding_mode upscale ifm_layout ofm_layout).attrs.kernel_shape =
      kernel_shape ∧
    (MakeEthosuConv2D ifm weight scale_bias lut ifm_scale ifm_zero_point weight_zero_point
        ofm_scale ofm_zero_point kernel_shape ofm_channels strides padding dilation activation
        clip_min clip_max rounding_mode upscale ifm_layout ofm_layout).attrs.ofm_channels =
      ofm_channels ∧
    (EthosuConv2DAttrs.withDefaults ifm_scale ifm_zero_point weight_zero_point ofm_scale
        ofm_zero_point).kernel_shape = none ∧
    (EthosuConv2DAttrs.withDefaults ifm_scale ifm_zero_point weight_zero_point ofm_scale
        ofm_zero_point).ofm_channels = none :=
  ⟨rfl, rfl, rfl, rfl⟩

/-- C15, as stated, fails: with stride -1 the computation accepts input size 1 under a
3x3 kernel (all output dimensions are positive), and raising the top padding from 0 to 1
lowers the output height from 3 to 2. -/
theorem C15_negative_stride_not_monotone :
    EthosuInferKernelOutput [1, 1, 1, 8] "NHWC" "NHWC" [3, 3] 16 [1, 1] [-1, -1]
        [0, 0, 0, 0] = Except.ok [1, 3, 3, 16] ∧
    EthosuInferKernelOutput [1, 1, 1, 8] "NHWC" "NHWC" [3, 3] 16 [1, 1] [-1, -1]
        [1, 0, 0, 0] = Except.ok [1, 2, 3, 16] ∧
    outSize 1 1 0 3 1 (-1) < outSize 1 0 0 3 1 (-1) :=
  ⟨rfl, rfl, by decide⟩

/-- C15, amended: with positive strides, whenever the kernel-output computation accepts
its input (all output dimensions positive), raising any of the four paddings gives an
accepted output that is nowhere smaller, and raising any of the two strides gives an
accepted output that is nowhere larger; the other parameters are held fixed. -/
theorem C15_monotone_with_positive_strides :
    (∀ (ifm_shape : List Int) (ifm_layout ofm_layout : String) (kernel_shape : List Int)
      (ofm_channels : Int) (dilation : List Int)
      (sh sw pt pl pb pr pt2 pl2 pb2 pr2 : Int) (s : List Int),
      0 < sh → 0 < sw → pt ≤ pt2 → pl ≤ pl2 → pb ≤ pb2 → pr ≤ pr2 →
      EthosuInferKernelOutput ifm_shape ifm_layout ofm_layout kernel_shape ofm_channels
        dilation [sh, sw] [pt, pl, pb, pr] = Except.ok s →
      ∃ s2, EthosuInferKernelOutput ifm_shape ifm_layout ofm_layout kernel_shape ofm_channels
          dilation [sh, sw] [pt2, pl2, pb2, pr2] = Except.ok s2 ∧
        List.Forall₂ (fun d d2 => d ≤ d2) s s2) ∧
    (∀ (ifm_shape : List Int) (ifm_layout ofm_layout : String) (kernel_shape : List Int)
      (ofm_channels : Int) (dilation padding : List Int)
      (sh sw sh2 sw2 : Int) (s : List Int),
      0 < sh → 0 < sw → sh ≤ sh2 → sw ≤ sw2 →
      EthosuInferKernelOutput ifm_shape ifm_layout ofm_layout kernel_shape ofm_channels
        dilation [sh, sw] padding = Except.ok s →
      ∃ s2, EthosuInferKernelOutput ifm_shape ifm_layout ofm_layout kernel_shape ofm_channels
          dilation [sh2, sw2] padding = Except.ok s2 ∧
        List.Forall₂ (fun d d2 => d2 ≤ d) s s2) := by
  constructor
  · intro ifm_shape il ol ks oc dil sh sw pt pl pb pr pt2 pl2 pb2 pr2 s hsh hsw c1 c2 c3 c4 hko
    obtain ⟨hi, wi, in_h, in_w, kh, kw, dh, dw, sh1, sw1, pt1, pl1, pb1, pr1, hl, hol, a1, a2,
      a3, a4, a5, a6, a7, a8, a9, a10, a11, a12, hshape, hpos⟩ :=
      EthosuInferKernelOutput_ok hko
    simp at a7 a8 a9 a10 a11 a12
    subst a7 a8 a9 a10 a11 a12
    have e := @EthosuInferKernelOutput_eq ifm_shape il ol ks oc dil [sh, sw]
      [pt2, pl2, pb2, pr2] hi wi in_h in_w kh kw dh dw sh sw pt2 pl2 pb2 pr2
      hl hol a1 a2 a3 a4 a5 a6 rfl rfl rfl rfl rfl rfl
    have mh : outSize in_h pt pb kh dh sh ≤ outSize in_h pt2 pb2 kh dh sh :=
      outSize_mono_padding hsh c1 c3
    have mw : outSize in_w pl pr kw dw sw ≤ outSize in_w pl2 pr2 kw dw sw :=
      outSize_mono_padding hsw c2 c4
    rw [e]
    by_cases hN : ol = "NHWC"
    · rw [if_pos hN] at hshape
      subst hshape
      simp only [if_pos hN]
      have p1 := hpos (outSize in_h pt pb kh dh sh) (by simp)
      have p2 := hpos (outSize in_w pl pr kw dw sw) (by simp)
      have p3 := hpos oc (by simp)
      have hall : ([1, outSize in_h pt2 pb2 kh dh sh, outSize in_w pl2 pr2 kw dw sw, oc].all
          (fun d => decide (0 < d))) = true := by
        simp
        omega
      rw [if_pos hall]
      exact ⟨_, rfl, List.Forall₂.cons (le_refl _) (List.Forall₂.cons mh
        (List.Forall₂.cons mw (List.Forall₂.cons (le_refl _) List.Forall₂.nil)))⟩
    · rw [if_neg hN] at hshape
      subst hshape
      simp only [if_neg hN]
      have p1 := hpos (outSize in_h pt pb kh dh sh) (by simp)
      have p2 := hpos (outSize in_w pl pr kw dw sw) (by simp)
      have p3 := hpos (Int.fdiv oc 16) (by simp)
      have hall : ([1, outSize in_h pt2 pb2 kh dh sh, Int.fdiv oc 16,
          outSize in_w pl2 pr2 kw dw sw, 16].all (fun d => decide (0 < d))) = true := by
        simp
        omega
      rw [if_pos hall]
      exact ⟨_, rfl, List.Forall₂.cons (le_refl _) (List.Forall₂.cons mh
        (List.Forall₂.cons (le_refl _) (List.Forall₂.cons mw
          (List.Forall₂.cons (le_refl _) List.Forall₂.nil))))⟩
  · intro ifm_shape il ol ks oc dil pad sh sw sh2 sw2 s hsh hsw c1 c2 hko
    obtain ⟨hi, wi, in_h, in_w, kh, kw, dh, dw, sh1, sw1, pt, pl, pb, pr, hl, hol, a1, a2,
      a3, a4, a5, a6, a7, a8, a9, a10, a11, a12, hshape, hpos⟩ :=
      EthosuInferKernelOutput_ok hko
    simp at a7 a8
    subst a7 a8
    have e := @EthosuInferKernelOutput_eq ifm_shape il ol ks oc dil [sh2, sw2] pad
      hi wi in_h in_w kh kw dh dw sh2 sw2 pt pl pb pr
      hl hol a1 a2 a3 a4 a5 a6 rfl rfl a9 a10 a11 a12
    rw [e]
    by_cases hN : ol = "NHWC"
    · rw [if_pos hN] at hshape
      subst hshape
      simp only [if_pos hN]
      have p1 := hpos (outSize in_h pt pb kh dh sh) (by simp)
      have p2 := hpos (outSize in_w pl pr kw dw sw) (by simp)
      have p3 := hpos oc (by simp)
      obtain ⟨q1, mh⟩ := outSize_anti_stride hsh c1 p1
      obtain ⟨q2, mw⟩ := outSize_anti_stride hsw c2 p2
      have hall : ([1, outSize in_h pt pb kh dh sh2, outSize in_w pl pr kw dw sw2, oc].all
          (fun d => decide (0 < d))) = true := by
        simp
        omega
      rw [if_pos hall]
      exact ⟨_, rfl, List.Forall₂.cons (le_refl _) (List.Forall₂.cons mh
        (List.Forall₂.cons mw (List.Forall₂.cons (le_refl _) List.Forall₂.nil)))⟩
    · rw [if_neg hN] at hshape
      subst hshape
      simp only [if_neg hN]
      have p1 := hpos (outSize in_h pt pb kh dh sh) (by simp)
      have p2 := hpos (outSize in_w pl pr kw dw sw) (by simp)
      have p3 := hpos (Int.fdiv oc 16) (by simp)
      obtain ⟨q1, mh⟩ := outSize_anti_stride hsh c1 p1
      obtain ⟨q2, mw⟩ := outSize_anti_stride hsw c2 p2
      have hall : ([1, outSize in_h pt pb kh dh sh2, Int.fdiv oc 16,
          outSize in_w pl pr kw dw sw2, 16].all (fun d => decide (0 < d))) = true := by
        simp
        omega
      rw [if_pos hall]
      exact ⟨_, rfl, List.Forall₂.cons (le_refl _) (List.Forall₂.cons mh
        (List.Forall₂.cons (le_refl _) (List.Forall₂.cons mw
          (List.Forall₂.cons (le_refl _) List.Forall₂.nil))))⟩

theorem C15_monotone_with_positive_strides_witness :
    ∃ s2, EthosuInferKernelOutput [1, 32, 32, 8] "NHWC" "NHWC" [3, 3] 16 [1, 1] [2, 2]
        [1, 1, 1, 1] = Except.ok s2 ∧
      List.Forall₂ (fun d d2 => d ≤ d2) [1, 15, 15, 16] s2 :=
  C15_monotone_with_positive_strides.1 [1, 32, 32, 8] "NHWC" "NHWC" [3, 3] 16 [1, 1]
    2 2 0 0 0 0 1 1 1 1 [1, 15, 15, 16] (by decide) (by decide) (by decide) (by decide)
    (by decide) (by decide) rfl

/-- C16: for a call with legal dtypes and a legal upscale value, whose attributes give
`kernel_shape[0]`, `kernel_shape[1]` and `ofm_channels` and whose weight has an axis 3, if
the weight shape differs from `(ofm_channels, kernel_shape[0], kernel_shape[1], _)` in
one of its first three axes, or the scale-bias shape differs from `(ofm_channels, 10)`,
the relation fails with `ShapeConflict` on the weight or the scale-bias slot and leaves
every slot as it was. -/
theorem C16_shape_conflict (ifm weight sb : TensorTypeNode) (t3 t4 : RelayType) (n : Int)
    (param : EthosuConv2DAttrs) (ks : List Int) (oc k0 k1 w3 : Int)
    (hid : ifm.dtype = DataType.UInt 8 ∨ ifm.dtype = DataType.Int 8)
    (hwd : weight.dtype = DataType.UInt 8 ∨ weight.dtype = DataType.Int 8)
    (hsd : sb.dtype = DataType.UInt 8)
    (hup : param.upscale = "NONE" ∨ param.upscale = "ZEROS" ∨ param.upscale = "NEAREST")
    (hks : param.kernel_shape = some ks) (hk0 : ks[0]? = some k0) (hk1 : ks[1]? = some k1)
    (hoc : param.ofm_channels = some oc) (hw3 : weight.shape[3]? = some w3)
    (hdiff : ¬ (weight.shape[0]? = some oc ∧ weight.shape[1]? = some k0 ∧
        weight.shape[2]? = some k1) ∨ sb.shape ≠ [oc, 10]) :
    ∃ slot, (slot = 1 ∨ slot = 2) ∧
      EthosuConv2DRel [RelayType.tensor ifm, RelayType.tensor weight, RelayType.tensor sb,
          t3, t4] n (some param) =
        ⟨RelStatus.failed (RelError.ShapeConflict slot),
          [RelayType.tensor ifm, RelayType.tensor weight, RelayType.tensor sb, t3, t4],
          []⟩ := by
  have c1 : ¬ (ifm.dtype ≠ DataType.UInt 8 ∧ ifm.dtype ≠ DataType.Int 8) := by tauto
  have c2 : ¬ (weight.dtype ≠ DataType.UInt 8 ∧ weight.dtype ≠ DataType.Int 8) := by tauto
  have c3 : ¬ (sb.dtype ≠ DataType.UInt 8) := by tauto
  have c4 : ¬ ¬ (param.upscale ∈ upscale_methods) := by
    simp only [upscale_methods, List.mem_cons, List.mem_singleton, List.not_mem_nil,
      or_false]
    tauto
  have hlen : 3 < weight.shape.length := by
    by_contra hc
    rw [List.getElem?_eq_none (Nat.le_of_not_lt hc)] at hw3
    cases hw3
  obtain ⟨w0, hw0⟩ : ∃ w0, weight.shape[0]? = some w0 :=
    ⟨weight.shape[0], List.getElem?_eq_getElem (by omega)⟩
  have e0 : arrayAt "weight.shape" weight.shape 0 = Except.ok w0 := arrayAt_ok.mpr hw0
  have e3 : arrayAt "weight.shape" weight.shape 3 = Except.ok w3 := arrayAt_ok.mpr hw3
  have ek0 : arrayAt "kernel_shape" ks 0 = Except.ok k0 := arrayAt_ok.mpr hk0
  have ek1 : arrayAt "kernel_shape" ks 1 = Except.ok k1 := arrayAt_ok.mpr hk1
  unfold EthosuConv2DRel
  simp only [RelayType.asTensorTypeNode]
  rw [if_neg c1, if_neg c2, if_neg c3, if_neg c4]
  unfold resolveShapes
  simp only [e0]
  cases h2 : Assign [RelayType.tensor ifm, RelayType.tensor weight, RelayType.tensor sb, t3, t4]
      2 ⟨[w0, 10], DataType.UInt 8⟩ with
  | none => exact ⟨2, Or.inr rfl, rfl⟩
  | some ts1 =>
    rw [Assign_two_tensor] at h2
    obtain ⟨hsb, rfl⟩ := h2
    simp only [hks, ek0, ek1, e3, hoc]
    cases h1 : Assign [RelayType.tensor ifm, RelayType.tensor weight, RelayType.tensor sb,
        t3, t4] 1 ⟨[oc, k0, k1, w3], weight.dtype⟩ with
    | none => exact ⟨1, Or.inl rfl, rfl⟩
    | some ts2 =>
      rw [Assign_one_tensor] at h1
      obtain ⟨hw, -⟩ := h1
      exfalso
      have hws : weight.shape = [oc, k0, k1, w3] := congrArg TensorTypeNode.shape hw
      rw [hws] at hw0
      simp at hw0
      subst hw0
      rcases hdiff with hd | hd
      · apply hd
        rw [hws]
        exact ⟨rfl, rfl, rfl⟩
      · apply hd
        rw [hsb]

theorem C16_shape_conflict_witness :
    ∃ slot, (slot = 1 ∨ slot = 2) ∧
      EthosuConv2DRel [RelayType.tensor ⟨[1, 32, 32, 8], DataType.Int 8⟩,
          RelayType.tensor ⟨[16, 5, 5, 8], DataType.Int 8⟩,
          RelayType.tensor ⟨[16, 10], DataType.UInt 8⟩, RelayType.incomplete,
          RelayType.incomplete] 4 (some attrs3x3) =
        ⟨RelStatus.failed (RelError.ShapeConflict slot),
          [RelayType.tensor ⟨[1, 32, 32, 8], DataType.Int 8⟩,
            RelayType.tensor ⟨[16, 5, 5, 8], DataType.Int 8⟩,
            RelayType.tensor ⟨[16, 10], DataType.UInt 8⟩, RelayType.incomplete,
            RelayType.incomplete], []⟩ :=
  C16_shape_conflict ⟨[1, 32, 32, 8], DataType.Int 8⟩ ⟨[16, 5, 5, 8], DataType.Int 8⟩
    ⟨[16, 10], DataType.UInt 8⟩ RelayType.incomplete RelayType.incomplete 4 attrs3x3 [3, 3]
    16 3 3 8 (Or.inr rfl) (Or.inr rfl) rfl (Or.inl rfl) rfl rfl rfl rfl rfl
    (Or.inl (by decide))

/-- C17: two calls that differ only in the lut slot (slot 3) have the same status, emit
the same diagnostics and leave the same types in every other slot; and the lut slot is
never assigned: after the call it holds what it held on entry. -/
theorem C17_lut_slot_ignored (t0 t1 t2 lut lut2 t4 : RelayType) (n : Int)
    (attrs : Option EthosuConv2DAttrs) :
    (EthosuConv2DRel [t0, t1, t2, lut2, t4] n attrs).status =
      (EthosuConv2DRel [t0, t1, t2, lut, t4] n attrs).status ∧
    (EthosuConv2DRel [t0, t1, t2, lut2, t4] n attrs).diags =
      (EthosuConv2DRel [t0, t1, t2, lut, t4] n attrs).diags ∧
    (∀ i, i ≠ 3 → (EthosuConv2DRel [t0, t1, t2, lut2, t4] n attrs).types[i]? =
      (EthosuConv2DRel [t0, t1, t2, lut, t4] n attrs).types[i]?) ∧
    (EthosuConv2DRel [t0, t1, t2, lut, t4] n attrs).types[3]? = some lut := by
  have e := EthosuConv2DRel_set_three t0 t1 t2 lut lut2 t4 n attrs
  refine ⟨by rw [e], by rw [e], ?_, ?_⟩
  · intro i hi
    rw [e]
    exact List.getElem?_set_ne (Ne.symm hi)
  · by_cases hs : (EthosuConv2DRel [t0, t1, t2, lut, t4] n attrs).status = RelStatus.resolved
    · obtain ⟨ifm, weight, sb, t3, t4b, param, ks, k0, k1, w3, oc, eff, ofm_shape, hty, -,
        -, -, -, -, -, -, -, -, -, -, -, -, hr⟩ := EthosuConv2DRel_resolved hs
      rw [hr]
      simp only [List.cons.injEq, and_true] at hty
      rw [hty.2.2.2.1]
      rfl
    · rw [EthosuConv2DRel_types_unchanged _ _ _ hs]
      rfl

theorem C17_lut_slot_ignored_witness :
    (EthosuConv2DRel [ifm32, weight3x3, scaleBias16,
        RelayType.tensor ⟨[256], DataType.Float 32⟩, RelayType.incomplete] 4
        (some attrs3x3)).status = RelStatus.resolved ∧
    (EthosuConv2DRel [ifm32, weight3x3, scaleBias16, RelayType.incomplete,
        RelayType.incomplete] 4 (some attrs3x3)).types[3]? = some RelayType.incomplete :=
  ⟨((C17_lut_slot_ignored ifm32 weight3x3 scaleBias16 RelayType.incomplete
      (RelayType.tensor ⟨[256], DataType.Float 32⟩) RelayType.incomplete 4
      (some attrs3x3)).1).trans (by decide),
    (C17_lut_slot_ignored ifm32 weight3x3 scaleBias16 RelayType.incomplete
      (RelayType.tensor ⟨[256], DataType.Float 32⟩) RelayType.incomplete 4
      (some attrs3x3)).2.2.2⟩

/-- C18: the dtype and upscale checks run in the order ifm dtype, weight dtype,
scale-bias dtype, upscale value, and the first one violated decides the failure: it is the
only diagnostic emitted, it names the tensor and the dtype (or the upscale value) found,
and the slots stay as they were.  In general the relation emits at most one diagnostic,
and whenever it does not return success every slot is as it was on entry. -/
theorem C18_first_violated_check :
    (∀ (ifm weight : TensorTypeNode) (t2 t3 t4 : RelayType) (n : Int)
      (param : EthosuConv2DAttrs),
      (ifm.dtype ≠ DataType.UInt 8 ∧ ifm.dtype ≠ DataType.Int 8) →
      EthosuConv2DRel [RelayType.tensor ifm, RelayType.tensor weight, t2, t3, t4] n
          (some param) =
        ⟨RelStatus.failed RelError.UnsupportedDType,
          [RelayType.tensor ifm, RelayType.tensor weight, t2, t3, t4],
          [Diagnostic.dtype "input" ifm.dtype]⟩) ∧
    (∀ (ifm weight : TensorTypeNode) (t2 t3 t4 : RelayType) (n : Int)
      (param : EthosuConv2DAttrs),
      (ifm.dtype = DataType.UInt 8 ∨ ifm.dtype = DataType.Int 8) →
      (weight.dtype ≠ DataType.UInt 8 ∧ weight.dtype ≠ DataType.Int 8) →
      EthosuConv2DRel [RelayType.tensor ifm, RelayType.tensor weight, t2, t3, t4] n
          (some param) =
        ⟨RelStatus.failed RelError.UnsupportedDType,
          [RelayType.tensor ifm, RelayType.tensor weight, t2, t3, t4],
          [Diagnostic.dtype "weight" weight.dtype]⟩) ∧
    (∀ (ifm weight sb : TensorTypeNode) (t3 t4 : RelayType) (n : Int)
      (param : EthosuConv2DAttrs),
      (ifm.dtype = DataType.UInt 8 ∨ ifm.dtype = DataType.Int 8) →
      (weight.dtype = DataType.UInt 8 ∨ weight.dtype = DataType.Int 8) →
      sb.dtype ≠ DataType.UInt 8 →
      EthosuConv2DRel [RelayType.tensor ifm, RelayType.tensor weight, RelayType.tensor sb,
          t3, t4] n (some param) =
        ⟨RelStatus.failed RelError.UnsupportedDType,
          [RelayType.tensor ifm, RelayType.tensor weight, RelayType.tensor sb, t3, t4],
          [Diagnostic.dtype "scale bias" sb.dtype]⟩) ∧
    (∀ (ifm weight sb : TensorTypeNode) (t3 t4 : RelayType) (n : Int)
      (param : EthosuConv2DAttrs),
      (ifm.dtype = DataType.UInt 8 ∨ ifm.dtype = DataType.Int 8) →
      (weight.dtype = DataType.UInt 8 ∨ weight.dtype = DataType.Int 8) →
      sb.dtype = DataType.UInt 8 →
      (param.upscale ≠ "NONE" ∧ param.upscale ≠ "ZEROS" ∧ param.upscale ≠ "NEAREST") →
      EthosuConv2DRel [RelayType.tensor ifm, RelayType.tensor weight, RelayType.tensor sb,
          t3, t4] n (some param) =
        ⟨RelStatus.failed RelError.InvalidEnumValue,
          [RelayType.tensor ifm, RelayType.tensor weight, RelayType.tensor sb, t3, t4],
          [Diagnostic.upscaleMethod param.upscale]⟩) ∧
    (∀ (types : List RelayType) (n : Int) (attrs : Option EthosuConv2DAttrs),
      (EthosuConv2DRel types n attrs).diags.length ≤ 1 ∧
      ((EthosuConv2DRel types n attrs).status ≠ RelStatus.resolved →
        (EthosuConv2DRel types n attrs).types = types)) := by
  refine ⟨?_, ?_, ?_, ?_, ?_⟩
  · intro ifm weight t2 t3 t4 n param c1
    unfold EthosuConv2DRel
    simp only [RelayType.asTensorTypeNode]
    rw [if_pos c1]
    rfl
  · intro ifm weight t2 t3 t4 n param h1 c2
    have c1 : ¬ (ifm.dtype ≠ DataType.UInt 8 ∧ ifm.dtype ≠ DataType.Int 8) := by tauto
    unfold EthosuConv2DRel
    simp only [RelayType.asTensorTypeNode]
    rw [if_neg c1, if_pos c2]
    rfl
  · intro ifm weight sb t3 t4 n param h1 h2 c3
    have c1 : ¬ (ifm.dtype ≠ DataType.UInt 8 ∧ ifm.dtype ≠ DataType.Int 8) := by tauto
    have c2 : ¬ (weight.dtype ≠ DataType.UInt 8 ∧ weight.dtype ≠ DataType.Int 8) := by tauto
    unfold EthosuConv2DRel
    simp only [RelayType.asTensorTypeNode]
    rw [if_neg c1, if_neg c2, if_pos c3]
    rfl
  · intro ifm weight sb t3 t4 n param h1 h2 h3 hu
    have c1 : ¬ (ifm.dtype ≠ DataType.UInt 8 ∧ ifm.dtype ≠ DataType.Int 8) := by tauto
    have c2 : ¬ (weight.dtype ≠ DataType.UInt 8 ∧ weight.dtype ≠ DataType.Int 8) := by tauto
    have c3 : ¬ (sb.dtype ≠ DataType.UInt 8) := by tauto
    have c4 : ¬ (param.upscale ∈ upscale_methods) := by
      simp only [upscale_methods, List.mem_cons, List.mem_singleton, List.not_mem_nil,
        or_false]
      tauto
    unfold EthosuConv2DRel
    simp only [RelayType.asTensorTypeNode]
    rw [if_neg c1, if_neg c2, if_neg c3, if_pos c4]
    rfl
  · intro types n attrs
    exact ⟨EthosuConv2DRel_diags_length types n attrs,
      EthosuConv2DRel_types_unchanged types n attrs⟩

theorem C18_first_violated_check_witness :
    EthosuConv2DRel [RelayType.tensor ⟨[1, 32, 32, 8], DataType.Float 32⟩,
        RelayType.tensor ⟨[16, 3, 3, 8], DataType.Int 8⟩, scaleBias16, RelayType.incomplete,
        RelayType.incomplete] 4 (some { attrs3x3 with upscale := "HALF" }) =
      ⟨RelStatus.failed RelError.UnsupportedDType,
        [RelayType.tensor ⟨[1, 32, 32, 8], DataType.Float 32⟩,
          RelayType.tensor ⟨[16, 3, 3, 8], DataType.Int 8⟩, scaleBias16,
          RelayType.incomplete, RelayType.incomplete],
        [Diagnostic.dtype "input" (DataType.Float 32)]⟩ :=
  C18_first_violated_check.1 ⟨[1, 32, 32, 8], DataType.Float 32⟩
    ⟨[16, 3, 3, 8], DataType.Int 8⟩ scaleBias16 RelayType.incomplete RelayType.incomplete 4
    { attrs3x3 with upscale := "HALF" } ⟨by decide, by decide⟩

/-- C19: the relation does not compare the weight's axis 3 with the ifm channel count.
The call with NHWC ifm `(1,32,32,8)` and weight `(16,3,3,4)` succeeds and resolves ofm to
`(1,30,30,16)`; and whenever a call with a four-axis weight succeeds, the same call with
any other value on the weight's axis 3 succeeds too and resolves the ofm slot to the same
type. -/
theorem C19_weight_channels_not_cross_checked :
    EthosuConv2DRel [ifm32, RelayType.tensor ⟨[16, 3, 3, 4], DataType.Int 8⟩, scaleBias16,
        RelayType.incomplete, RelayType.incomplete] 4 (some attrs3x3) =
      ⟨RelStatus.resolved,
        [ifm32, RelayType.tensor ⟨[16, 3, 3, 4], DataType.Int 8⟩, scaleBias16,
          RelayType.incomplete, RelayType.tensor ⟨[1, 30, 30, 16], DataType.Int 8⟩], []⟩ ∧
    (∀ (t0 t2 t3 t4 : RelayType) (wdt : DataType) (a b c w3 w3b : Int) (n : Int)
      (attrs : Option EthosuConv2DAttrs),
      (EthosuConv2DRel [t0, RelayType.tensor ⟨[a, b, c, w3], wdt⟩, t2, t3, t4] n
        attrs).status = RelStatus.resolved →
      (EthosuConv2DRel [t0, RelayType.tensor ⟨[a, b, c, w3b], wdt⟩, t2, t3, t4] n
        attrs).status = RelStatus.resolved ∧
      (EthosuConv2DRel [t0, RelayType.tensor ⟨[a, b, c, w3b], wdt⟩, t2, t3, t4] n
        attrs).types[4]? =
      (EthosuConv2DRel [t0, RelayType.tensor ⟨[a, b, c, w3], wdt⟩, t2, t3, t4] n
        attrs).types[4]?) := by
  refine ⟨by decide, ?_⟩
  intro t0 t2 t3 t4 wdt a b c w3 w3b n attrs hs
  obtain ⟨ifm, weight, sb, t3b, t4b, param, ks, k0, k1, w3c, oc, eff, ofm_shape, hty, hat,
    hid, hwd, hup, hks, hk0, hk1, hoc, hws, hsb, heff, hko, h4, hr⟩ :=
    EthosuConv2DRel_resolved hs
  simp only [List.cons.injEq, and_true] at hty
  obtain ⟨rfl, hwe, rfl, rfl, rfl⟩ := hty
  cases hwe
  subst hat hsb
  simp only [List.cons.injEq, and_true] at hws
  obtain ⟨rfl, rfl, rfl, rfl⟩ := hws
  have e := @EthosuConv2DRel_intro ifm ⟨[_, _, _, w3b], wdt⟩ t3 t4 n param ks _ _ w3b _ eff
    ofm_shape hid hwd hup hks hk0 hk1 hoc rfl heff hko h4
  rw [hr, e]
  exact ⟨rfl, rfl⟩

theorem C19_weight_channels_not_cross_checked_witness :
    (EthosuConv2DRel [ifm32, RelayType.tensor ⟨[16, 3, 3, 5], DataType.Int 8⟩, scaleBias16,
        RelayType.incomplete, RelayType.incomplete] 4
        (some attrs3x3)).status = RelStatus.resolved ∧
      (EthosuConv2DRel [ifm32, RelayType.tensor ⟨[16, 3, 3, 5], DataType.Int 8⟩, scaleBias16,
        RelayType.incomplete, RelayType.incomplete] 4 (some attrs3x3)).types[4]? =
      (EthosuConv2DRel [ifm32, RelayType.tensor ⟨[16, 3, 3, 8], DataType.Int 8⟩, scaleBias16,
        RelayType.incomplete, RelayType.incomplete] 4 (some attrs3x3)).types[4]? :=
  C19_weight_channels_not_cross_checked.2 ifm32 scaleBias16 RelayType.incomplete
    RelayType.incomplete (DataType.Int 8) 16 3 3 8 5 4 (some attrs3x3) (by decide)

/-- C20: for a call with five slots whose concrete weight shape has at least four axes
and whose `kernel_shape` has at least two entries, the reads of the slots, of
`weight.shape[0]`, `weight.shape[3]`, `kernel_shape[0]` and `kernel_shape[1]` are all in
range: the relation fails neither the arity check nor a bounds check on the weight shape
or the kernel shape.  The relation itself checks neither length first: a weight of three
axes runs into the bounds check of `weight.shape[3]`, and a kernel shape of one entry
into that of `kernel_shape[1]`. -/
theorem C20_reads_in_bounds :
    (∀ (t0 t2 t3 t4 : RelayType) (weight : TensorTypeNode) (n : Int)
      (param : EthosuConv2DAttrs) (ks : List Int) (i : Nat),
      4 ≤ weight.shape.length → param.kernel_shape = some ks → 2 ≤ ks.length →
      (EthosuConv2DRel [t0, RelayType.tensor weight, t2, t3, t4] n (some param)).status ≠
          RelStatus.failed RelError.ArityMismatch ∧
      (EthosuConv2DRel [t0, RelayType.tensor weight, t2, t3, t4] n (some param)).status ≠
          RelStatus.failed (RelError.IndexOutOfRange "weight.shape" i) ∧
      (EthosuConv2DRel [t0, RelayType.tensor weight, t2, t3, t4] n (some param)).status ≠
          RelStatus.failed (RelError.IndexOutOfRange "kernel_shape" i)) ∧
    (EthosuConv2DRel [ifm32, RelayType.tensor ⟨[16, 3, 3], DataType.Int 8⟩, scaleBias16,
        RelayType.incomplete, RelayType.incomplete] 4 (some attrs3x3)).status =
      RelStatus.failed (RelError.IndexOutOfRange "weight.shape" 3) ∧
    (EthosuConv2DRel [ifm32, weight3x3, scaleBias16, RelayType.incomplete,
        RelayType.incomplete] 4 (some { attrs3x3 with kernel_shape := some [3] })).status =
      RelStatus.failed (RelError.IndexOutOfRange "kernel_shape" 1) := by
  refine ⟨?_, by decide, by decide⟩
  intro t0 t2 t3 t4 weight n param ks i hw hks hk
  refine ⟨EthosuConv2DRel_five_slots _ _ _ _ _ _ _, ?_, ?_⟩
  · intro h
    obtain ⟨ifm, weight2, param2, h1, hat, hr⟩ := EthosuConv2DRel_index_error h
    cases h1
    cases hat
    exact (resolveShapes_reads hw (fun ks2 h2 => by rw [hks] at h2; cases h2; exact hk) hr).1 rfl
  · intro h
    obtain ⟨ifm, weight2, param2, h1, hat, hr⟩ := EthosuConv2DRel_index_error h
    cases h1
    cases hat
    exact (resolveShapes_reads hw (fun ks2 h2 => by rw [hks] at h2; cases h2; exact hk) hr).2 rfl

theorem C20_reads_in_bounds_witness :
    (EthosuConv2DRel [ifm32, RelayType.tensor ⟨[16, 3, 3, 8], DataType.Int 8⟩, scaleBias16,
        RelayType.incomplete, RelayType.incomplete] 4 (some attrs3x3)).status ≠
        RelStatus.failed RelError.ArityMismatch ∧
    (EthosuConv2DRel [ifm32, RelayType.tensor ⟨[16, 3, 3, 8], DataType.Int 8⟩, scaleBias16,
        RelayType.incomplete, RelayType.incomplete] 4 (some attrs3x3)).status ≠
        RelStatus.failed (RelError.IndexOutOfRange "weight.shape" 3) ∧
    (EthosuConv2DRel [ifm32, RelayType.tensor ⟨[16, 3, 3, 8], DataType.Int 8⟩, scaleBias16,
        RelayType.incomplete, RelayType.incomplete] 4 (some attrs3x3)).status ≠
        RelStatus.failed (RelError.IndexOutOfRange "kernel_shape" 3) :=
  C20_reads_in_bounds.1 ifm32 scaleBias16 RelayType.incomplete RelayType.incomplete
    ⟨[16, 3, 3, 8], DataType.Int 8⟩ 4 attrs3x3 [3, 3] 3 (by decide) rfl (by decide)

end EthosU
